import Mathlib

/-!
# RalphMeter — verification of the line-level verification and metrics engine

Shallow embedding of the core of the RalphMeter repository:

* `src/core/gates.ts`   — `GateTracker` (gate observations, per-gate stats,
  per-line verification verdicts, session stats, gate policy configuration);
* `src/core/loc.ts`     — `countLines` (line classifier);
* `src/core/collector.ts` — `EventCollector` (session store, event-derived counters);
* `src/schemas/index.ts` — `MetricsCalculator` (`calculate`, `recordSynthMeasurement`).

Modelling conventions:

* JavaScript numbers are modelled as exact rationals (`ℚ`); token and line
  counters, which the event schema constrains to nonnegative integers, are `Nat`.
* JS `Map` objects are modelled as association lists in insertion order;
  `mapGet`/`mapSet` mirror `Map.get`/`Map.set`.
* The source keys its per-line maps by the string `` `${filePath}:${lineNumber}` ``.
  Since the line-number component never contains `':'`, that encoding is injective
  in `(filePath, lineNumber)`, so the maps are keyed here by the pair directly.
  (The one place the source manipulates the encoded string itself — the
  `key.startsWith(filePath + ':')` filter of `getLineVerification` — is kept on
  the encoded string.)
* Timestamps that the claims never inspect are carried as opaque strings.
-/

set_option autoImplicit false

namespace RalphMeter

/-- `Result` type from `src/shared/result.ts`. -/
inductive Result (T E : Type) where
  | ok (value : T)
  | err (error : E)
deriving DecidableEq, Repr

namespace Result

/-- `isOk` from `src/shared/result.ts`. -/
def isOk {T E : Type} : Result T E → Bool
  | .ok _ => true
  | .err _ => false

/-- `isErr` from `src/shared/result.ts`. -/
def isErr {T E : Type} : Result T E → Bool
  | .ok _ => false
  | .err _ => true

end Result

/-! ## JS `Map` as an association list -/

/-- `Map.get`: value of the first (and in our uses, only) entry with the key. -/
def mapGet {α β : Type} [DecidableEq α] (m : List (α × β)) (k : α) : Option β :=
  (m.find? (fun p => p.1 = k)).map Prod.snd

/-- `Map.set` on a key that may or may not be present: replace the entry in
place if present, append otherwise (JS `Map` keeps insertion order). -/
def mapSet {α β : Type} [DecidableEq α] (m : List (α × β)) (k : α) (v : β) :
    List (α × β) :=
  match m with
  | [] => [(k, v)]
  | p :: rest =>
      if p.1 = k then (k, v) :: rest else p :: mapSet rest k v

/-! ## Gates: types (`src/core/gates.ts`) -/

/-- The three verification gates. -/
inductive Gate where
  | G1_COMPILE
  | G2_CORRECT
  | G3_REACHABLE
deriving DecidableEq, Repr

/-- `ALL_GATES`. -/
def ALL_GATES : List Gate := [.G1_COMPILE, .G2_CORRECT, .G3_REACHABLE]

/-- Configuration for a single gate. -/
structure GateConfig where
  required : Bool
  threshold : ℚ
  skip : Bool
deriving DecidableEq, Repr

/-- Configuration for all gates. -/
structure GateConfiguration where
  G1_COMPILE : GateConfig
  G2_CORRECT : GateConfig
  G3_REACHABLE : GateConfig
deriving DecidableEq, Repr

/-- Indexing `GateConfiguration` by a `Gate` (the source writes `this.config[g]`). -/
def GateConfiguration.get (c : GateConfiguration) : Gate → GateConfig
  | .G1_COMPILE => c.G1_COMPILE
  | .G2_CORRECT => c.G2_CORRECT
  | .G3_REACHABLE => c.G3_REACHABLE

/-- `DEFAULT_GATE_CONFIG` — all gates required with 100% threshold. -/
def DEFAULT_GATE_CONFIG : GateConfiguration :=
  { G1_COMPILE := { required := true, threshold := 1, skip := false }
    G2_CORRECT := { required := true, threshold := 1, skip := false }
    G3_REACHABLE := { required := true, threshold := 1, skip := false } }

/-- One entry of `GateVerificationResult.lineResults`. -/
structure LineResult where
  lineNumber : Nat
  passed : Bool
  errorMessage : Option String := none
deriving DecidableEq, Repr

/-- Verification result recorded for a session. -/
structure GateVerificationResult where
  sessionId : String
  timestamp : String
  gate : Gate
  filePath : String
  lineResults : List LineResult
deriving DecidableEq, Repr

/-- A single line observation, as one iteration of the nested
`for (const result of results) / for (const lr of result.lineResults)` loops
of `getGateStats` and `buildLineVerificationMap` sees it. -/
structure Obs where
  gate : Gate
  filePath : String
  lineNumber : Nat
  passed : Bool
deriving DecidableEq, Repr

/-- The map key `(result.filePath, lr.lineNumber)` of one observation
(the source's `` `${result.filePath}:${String(lr.lineNumber)}` ``). -/
def obsKey (o : Obs) : String × Nat := (o.filePath, o.lineNumber)

/-- `Omit<GateVerificationResult, 'sessionId'>` — the argument of `record`. -/
structure GateVerificationInput where
  timestamp : String
  gate : Gate
  filePath : String
  lineResults : List LineResult
deriving DecidableEq, Repr

/-- Statistics for a single gate. -/
structure GateStats where
  linesChecked : Nat
  linesPassed : Nat
  passRate : ℚ
  poe : ℚ
deriving DecidableEq, Repr

/-- Identifies a specific line in a file. -/
structure LineLocation where
  filePath : String
  lineNumber : Nat
deriving DecidableEq, Repr

/-- Aggregated verification status for a line. -/
structure LineVerificationStatus where
  location : LineLocation
  g1Passed : Option Bool := none
  g2Passed : Option Bool := none
  g3Passed : Option Bool := none
  verified : Bool
deriving DecidableEq, Repr

/-- `Record<Gate, GateStats>`. -/
structure PerGateStats where
  G1_COMPILE : GateStats
  G2_CORRECT : GateStats
  G3_REACHABLE : GateStats
deriving DecidableEq, Repr

/-- Indexing `PerGateStats` by a `Gate`. -/
def PerGateStats.get (p : PerGateStats) : Gate → GateStats
  | .G1_COMPILE => p.G1_COMPILE
  | .G2_CORRECT => p.G2_CORRECT
  | .G3_REACHABLE => p.G3_REACHABLE

/-- `perGate[gate] = stats` assignment. -/
def PerGateStats.set (p : PerGateStats) : Gate → GateStats → PerGateStats
  | .G1_COMPILE, s => { p with G1_COMPILE := s }
  | .G2_CORRECT, s => { p with G2_CORRECT := s }
  | .G3_REACHABLE, s => { p with G3_REACHABLE := s }

/-- Overall session statistics. -/
structure SessionGateStats where
  perGate : PerGateStats
  totalLinesChecked : Nat
  verifiedLines : Nat
  overallPoE : ℚ
deriving DecidableEq, Repr

/-- Error codes of `GateTrackerError`. -/
inductive GateTrackerErrorCode where
  | SESSION_NOT_FOUND
  | INVALID_GATE
  | INVALID_THRESHOLD
deriving DecidableEq, Repr

/-- Error type for gate tracker operations. -/
structure GateTrackerError where
  code : GateTrackerErrorCode
  message : String
deriving DecidableEq, Repr

/-- The runtime shape of a partial per-gate configuration update: JS object
spread merges field by field, so each field may be absent. -/
structure PartialGateConfig where
  required : Option Bool := none
  threshold : Option ℚ := none
  skip : Option Bool := none
deriving DecidableEq, Repr

/-- `Partial<GateConfiguration>`. -/
structure PartialGateConfiguration where
  G1_COMPILE : Option PartialGateConfig := none
  G2_CORRECT : Option PartialGateConfig := none
  G3_REACHABLE : Option PartialGateConfig := none
deriving DecidableEq, Repr

/-- Indexing `Partial<GateConfiguration>` by a `Gate`. -/
def PartialGateConfiguration.get (c : PartialGateConfiguration) :
    Gate → Option PartialGateConfig
  | .G1_COMPILE => c.G1_COMPILE
  | .G2_CORRECT => c.G2_CORRECT
  | .G3_REACHABLE => c.G3_REACHABLE

/-- `{ ...old, ...patch }` for a gate config (field-level JS spread). -/
def mergeGateConfig (old : GateConfig) : Option PartialGateConfig → GateConfig
  | none => old
  | some p =>
      { required := p.required.getD old.required
        threshold := p.threshold.getD old.threshold
        skip := p.skip.getD old.skip }

/-- The `GateTracker` state: its configuration and its `results` map
(session id → list of recorded `GateVerificationResult`s). -/
structure GateTracker where
  config : GateConfiguration
  results : List (String × List GateVerificationResult)
deriving DecidableEq, Repr

namespace GateTracker

/-- The constructor `new GateTracker(config?)`: defaults merged with the
supplied partial configuration. -/
def init (config : PartialGateConfiguration := {}) : GateTracker :=
  { config :=
      { G1_COMPILE := mergeGateConfig DEFAULT_GATE_CONFIG.G1_COMPILE config.G1_COMPILE
        G2_CORRECT := mergeGateConfig DEFAULT_GATE_CONFIG.G2_CORRECT config.G2_CORRECT
        G3_REACHABLE :=
          mergeGateConfig DEFAULT_GATE_CONFIG.G3_REACHABLE config.G3_REACHABLE }
    results := [] }

/-- `record(sessionId, result)`: validates the gate kind, then appends the
completed result to the session's list (creating the list if absent).
Returns the operation's `Result` together with the updated tracker. -/
def record (t : GateTracker) (sessionId : String) (result : GateVerificationInput) :
    Result GateVerificationResult GateTrackerError × GateTracker :=
  if ALL_GATES.contains result.gate then
    let fullResult : GateVerificationResult :=
      { sessionId := sessionId
        timestamp := result.timestamp
        gate := result.gate
        filePath := result.filePath
        lineResults := result.lineResults }
    match mapGet t.results sessionId with
    | some sessionResults =>
        (.ok fullResult,
          { t with results := mapSet t.results sessionId (sessionResults ++ [fullResult]) })
    | none =>
        (.ok fullResult, { t with results := t.results ++ [(sessionId, [fullResult])] })
  else
    (.err { code := .INVALID_GATE, message := "Invalid gate" }, t)

/-- `getResults(sessionId)`. -/
def getResults (t : GateTracker) (sessionId : String) :
    Result (List GateVerificationResult) GateTrackerError :=
  match mapGet t.results sessionId with
  | none =>
      .err { code := .SESSION_NOT_FOUND
             message := "No results found for session: " ++ sessionId }
  | some results => .ok results

/-- Inner loop body of `getGateStats`: AND-merge one observation into the
per-line pass map (a line only passes if all checks pass). -/
def passStep (lineMap : List ((String × Nat) × Bool)) (o : Obs) :
    List ((String × Nat) × Bool) :=
  let key := obsKey o
  match mapGet lineMap key with
  | some existing => mapSet lineMap key (existing && o.passed)
  | none => mapSet lineMap key o.passed

/-- The per-line pass map built inside `getGateStats`: over all results for the
given gate, AND-merge repeated observations of the same `(filePath, lineNumber)`
key. -/
def gateLineMap (results : List GateVerificationResult) (gate : Gate) :
    List ((String × Nat) × Bool) :=
  let gateResults := results.filter (fun r => r.gate = gate)
  gateResults.foldl
    (fun lineMap result =>
      result.lineResults.foldl
        (fun lineMap lr =>
          passStep lineMap
            { gate := result.gate, filePath := result.filePath
              lineNumber := lr.lineNumber, passed := lr.passed })
        lineMap)
    []

/-- The statistics `getGateStats` computes from a session's results list. -/
def gateStatsOf (results : List GateVerificationResult) (gate : Gate) : GateStats :=
  let lineMap := gateLineMap results gate
  let linesChecked := lineMap.length
  let linesPassed := (lineMap.map Prod.snd).countP (fun passed => passed)
  let passRate : ℚ := if linesChecked > 0 then (linesPassed : ℚ) / (linesChecked : ℚ) else 1
  let poe : ℚ := 1 - passRate
  { linesChecked := linesChecked, linesPassed := linesPassed
    passRate := passRate, poe := poe }

/-- `getGateStats(sessionId, gate)`. -/
def getGateStats (t : GateTracker) (sessionId : String) (gate : Gate) :
    Result GateStats GateTrackerError :=
  match t.getResults sessionId with
  | .err e => .err e
  | .ok results => .ok (gateStatsOf results gate)

/-- The `switch (result.gate)` of `buildLineVerificationMap`: AND-merge one
observation into the gate-specific status field. -/
def updateGateStatus (status : LineVerificationStatus) (gate : Gate) (passed : Bool) :
    LineVerificationStatus :=
  match gate with
  | .G1_COMPILE =>
      match status.g1Passed with
      | none => { status with g1Passed := some passed }
      | some b => { status with g1Passed := some (b && passed) }
  | .G2_CORRECT =>
      match status.g2Passed with
      | none => { status with g2Passed := some passed }
      | some b => { status with g2Passed := some (b && passed) }
  | .G3_REACHABLE =>
      match status.g3Passed with
      | none => { status with g3Passed := some passed }
      | some b => { status with g3Passed := some (b && passed) }

/-- Inner loop body of `buildLineVerificationMap`: fetch (or freshly create,
with `verified := false`) the status of the observation's line, then AND-merge
the observation into the gate-specific field. -/
def statusStep (lineMap : List ((String × Nat) × LineVerificationStatus))
    (o : Obs) : List ((String × Nat) × LineVerificationStatus) :=
  let key := obsKey o
  let status :=
    match mapGet lineMap key with
    | some s => s
    | none =>
        { location := { filePath := o.filePath, lineNumber := o.lineNumber }
          verified := false }
  mapSet lineMap key (updateGateStatus status o.gate o.passed)

/-- The map `buildLineVerificationMap` computes from a session's results list. -/
def lineVerificationMapOf (results : List GateVerificationResult) :
    List ((String × Nat) × LineVerificationStatus) :=
  results.foldl
    (fun lineMap result =>
      result.lineResults.foldl
        (fun lineMap lr =>
          statusStep lineMap
            { gate := result.gate, filePath := result.filePath
              lineNumber := lr.lineNumber, passed := lr.passed })
        lineMap)
    []

/-- `buildLineVerificationMap(sessionId)` (`this.results.get(sessionId) ?? []`). -/
def buildLineVerificationMap (t : GateTracker) (sessionId : String) :
    List ((String × Nat) × LineVerificationStatus) :=
  lineVerificationMapOf ((mapGet t.results sessionId).getD [])

/-- `isLineVerified(status)`: not verified if any required, non-skipped gate
recorded a failing AND-reduction for the line; otherwise verified exactly when
some gate checked the line. -/
def isLineVerified (t : GateTracker) (status : LineVerificationStatus) : Bool :=
  let g1Config := t.config.G1_COMPILE
  let g2Config := t.config.G2_CORRECT
  let g3Config := t.config.G3_REACHABLE
  if (!g1Config.skip && g1Config.required) && status.g1Passed == some false then
    false
  else if (!g2Config.skip && g2Config.required) && status.g2Passed == some false then
    false
  else if (!g3Config.skip && g3Config.required) && status.g3Passed == some false then
    false
  else
    status.g1Passed.isSome || status.g2Passed.isSome || status.g3Passed.isSome

/-- `getSessionStats(sessionId)`. -/
def getSessionStats (t : GateTracker) (sessionId : String) :
    Result SessionGateStats GateTrackerError :=
  match t.getResults sessionId with
  | .err e => .err e
  | .ok _ =>
      let perGate0 : PerGateStats :=
        { G1_COMPILE := { linesChecked := 0, linesPassed := 0, passRate := 1, poe := 0 }
          G2_CORRECT := { linesChecked := 0, linesPassed := 0, passRate := 1, poe := 0 }
          G3_REACHABLE := { linesChecked := 0, linesPassed := 0, passRate := 1, poe := 0 } }
      let perGate := ALL_GATES.foldl
        (fun pg gate =>
          match t.getGateStats sessionId gate with
          | .ok stats => pg.set gate stats
          | .err _ => pg)
        perGate0
      let lineVerification := t.buildLineVerificationMap sessionId
      let totalLinesChecked := lineVerification.length
      let verifiedLines :=
        (lineVerification.map Prod.snd).countP (fun status => t.isLineVerified status)
      let applicableGates := ALL_GATES.filter (fun g =>
        !(t.config.get g).skip && (t.config.get g).required)
      let overallPoE : ℚ :=
        if applicableGates.length = 0 then 0
        else
          1 - applicableGates.foldl
            (fun product gate => product * (1 - (perGate.get gate).poe)) 1
      .ok { perGate := perGate, totalLinesChecked := totalLinesChecked
            verifiedLines := verifiedLines, overallPoE := overallPoE }

/-- The string key `` `${filePath}:${lineNumber}` `` of the source's line maps. -/
def encodeKey (filePath : String) (lineNumber : Nat) : String :=
  filePath ++ ":" ++ toString lineNumber

/-- Stable insertion of a status into a list already sorted by line number
(a new element goes after existing elements with the same line number). -/
def insertByLine (x : LineVerificationStatus) :
    List LineVerificationStatus → List LineVerificationStatus
  | [] => [x]
  | y :: ys =>
      if y.location.lineNumber ≤ x.location.lineNumber then y :: insertByLine x ys
      else x :: y :: ys

/-- Model of `fileLines.sort((a, b) => a.location.lineNumber - b.location.lineNumber)`
(`Array.prototype.sort` is stable): stable insertion sort by line number. -/
def sortByLineNumber (l : List LineVerificationStatus) : List LineVerificationStatus :=
  l.foldl (fun acc x => insertByLine x acc) []

/-- `getLineVerification(sessionId, filePath)`: all map entries whose encoded
key starts with `filePath + ':'`, verdicts recomputed against the current
configuration, sorted by line number. -/
def getLineVerification (t : GateTracker) (sessionId filePath : String) :
    Result (List LineVerificationStatus) GateTrackerError :=
  match t.getResults sessionId with
  | .err e => .err e
  | .ok _ =>
      let allLineStatus := t.buildLineVerificationMap sessionId
      let fileLines :=
        (allLineStatus.filter (fun p =>
            List.isPrefixOf (filePath ++ ":").data (encodeKey p.1.1 p.1.2).data)).map
          (fun p => { p.2 with verified := t.isLineVerified p.2 })
      .ok (sortByLineNumber fileLines)

/-- `getConfig()`. -/
def getConfig (t : GateTracker) : GateConfiguration := t.config

/-- `setConfig(config)`: rejects if any supplied threshold is outside `[0, 1]`
(leaving the stored policy unchanged), otherwise merges field by field. -/
def setConfig (t : GateTracker) (config : PartialGateConfiguration) :
    Result GateConfiguration GateTrackerError × GateTracker :=
  match ALL_GATES.find? (fun gate =>
      match (config.get gate).bind PartialGateConfig.threshold with
      | some th => decide (th < 0) || decide (1 < th)
      | none => false) with
  | some _ =>
      (.err { code := .INVALID_THRESHOLD
              message := "Invalid threshold. Must be between 0 and 1." }, t)
  | none =>
      let newConfig : GateConfiguration :=
        { G1_COMPILE := mergeGateConfig t.config.G1_COMPILE config.G1_COMPILE
          G2_CORRECT := mergeGateConfig t.config.G2_CORRECT config.G2_CORRECT
          G3_REACHABLE := mergeGateConfig t.config.G3_REACHABLE config.G3_REACHABLE }
      (.ok newConfig, { t with config := newConfig })

end GateTracker

/-! ## Line classifier (`src/core/loc.ts`) -/

/-- Supported programming languages. -/
inductive Language where
  | typescript
  | javascript
  | python
  | unknown
deriving DecidableEq, Repr

/-- Result of counting lines in a file or content. -/
structure LOCResult where
  total : Nat
  code : Nat
  comments : Nat
  blank : Nat
deriving DecidableEq, Repr

/-- Comment style configuration per language.  Tokens are modelled as
character lists (the contents of the source's strings). -/
structure CommentStyle where
  lineComment : Option (List Char)
  blockStart : Option (List Char)
  blockEnd : Option (List Char)
deriving DecidableEq, Repr

/-- `COMMENT_STYLES`. -/
def COMMENT_STYLES : Language → CommentStyle
  | .typescript =>
      { lineComment := some ['/', '/'], blockStart := some ['/', '*']
        blockEnd := some ['*', '/'] }
  | .javascript =>
      { lineComment := some ['/', '/'], blockStart := some ['/', '*']
        blockEnd := some ['*', '/'] }
  | .python =>
      { lineComment := some ['#'], blockStart := some ['\"', '\"', '\"']
        blockEnd := some ['\"', '\"', '\"'] }
  | .unknown => { lineComment := none, blockStart := none, blockEnd := none }

/-- JS `String.prototype.trim` (on the whitespace characters that occur in
line-oriented source text). -/
def trimChars (l : List Char) : List Char :=
  ((l.dropWhile Char.isWhitespace).reverse.dropWhile Char.isWhitespace).reverse

/-- JS `String.prototype.indexOf`: index of the first occurrence of `needle`. -/
def firstIndexOf? (needle : List Char) : List Char → Option Nat
  | [] => if needle = [] then some 0 else none
  | c :: rest =>
      if needle.isPrefixOf (c :: rest) then some 0
      else (firstIndexOf? needle rest).map (· + 1)

/-- JS `String.prototype.includes`. -/
def containsSub (needle haystack : List Char) : Bool :=
  (firstIndexOf? needle haystack).isSome

/-- Line categories produced by the classifier loop. -/
inductive LineCategory where
  | code
  | comment
  | blank
deriving DecidableEq, Repr

/-- One iteration of the `countLines` loop: classifies a single line and
yields the updated "inside an unterminated block comment" state. -/
def classifyLine (style : CommentStyle) (inBlockComment : Bool) (line : List Char) :
    LineCategory × Bool :=
  let trimmed := trimChars line
  if trimmed = [] then
    (.blank, inBlockComment)
  else
    match style.blockStart, style.blockEnd with
    | some blockStart, some blockEnd =>
        if !inBlockComment && containsSub blockStart trimmed then
          let startIdx := (firstIndexOf? blockStart trimmed).getD 0
          let afterStart := trimmed.drop (startIdx + blockStart.length)
          if containsSub blockEnd afterStart then
            let beforeComment := trimChars (trimmed.take startIdx)
            let endIdx := (firstIndexOf? blockEnd afterStart).getD 0
            let afterComment := trimChars (afterStart.drop (endIdx + blockEnd.length))
            if beforeComment ≠ [] || afterComment ≠ [] then (.code, inBlockComment)
            else (.comment, inBlockComment)
          else
            let beforeComment := trimChars (trimmed.take startIdx)
            if beforeComment ≠ [] then (.code, true) else (.comment, true)
        else if inBlockComment then
          if containsSub blockEnd trimmed then
            let endIdx := (firstIndexOf? blockEnd trimmed).getD 0
            let afterEnd := trimChars (trimmed.drop (endIdx + blockEnd.length))
            if afterEnd ≠ [] && !((style.lineComment.getD []).isPrefixOf afterEnd) then
              (.code, false)
            else (.comment, false)
          else (.comment, true)
        else
          match style.lineComment with
          | some lc =>
              if lc.isPrefixOf trimmed then (.comment, inBlockComment)
              else if containsSub lc trimmed then (.code, inBlockComment)
              else (.code, inBlockComment)
          | none => (.code, inBlockComment)
    | _, _ =>
        match style.lineComment with
        | some lc =>
            if lc.isPrefixOf trimmed then (.comment, inBlockComment)
            else if containsSub lc trimmed then (.code, inBlockComment)
            else (.code, inBlockComment)
        | none => (.code, inBlockComment)

/-- Split on a single character, never dropping empty segments
(`[].splitOnChar` is `[[]]`, like JS `''.split`). -/
def splitOnChar (sep : Char) : List Char → List (List Char)
  | [] => [[]]
  | c :: rest =>
      match splitOnChar sep rest with
      | [] => [[]]
      | line :: lines =>
          if c = sep then [] :: line :: lines else (c :: line) :: lines

/-- Remove one trailing `'\r'`, if present. -/
def stripTrailingCR (line : List Char) : List Char :=
  match line.getLast? with
  | some c => if c = '\r' then line.dropLast else line
  | none => line

/-- JS `content.split(/\r?\n/)`: split on `'\n'`; every separator match
consumes at most one `'\r'` immediately before the `'\n'`, so each segment
except the last loses one trailing `'\r'`. -/
def jsSplitLines (content : List Char) : List (List Char) :=
  let segments := splitOnChar '\n' content
  segments.dropLast.map stripTrailingCR ++ segments.drop (segments.length - 1)

/-- Accumulator of the `countLines` loop. -/
structure CountState where
  code : Nat
  comments : Nat
  blank : Nat
  inBlockComment : Bool
deriving DecidableEq, Repr

/-- One loop iteration of `countLines`, bumping exactly one counter. -/
def countStep (style : CommentStyle) (st : CountState) (line : List Char) : CountState :=
  match classifyLine style st.inBlockComment line with
  | (.code, inB) => { st with code := st.code + 1, inBlockComment := inB }
  | (.comment, inB) => { st with comments := st.comments + 1, inBlockComment := inB }
  | (.blank, inB) => { st with blank := st.blank + 1, inBlockComment := inB }

/-- `countLines(content, language)`. -/
def countLines (content : List Char) (language : Language) : LOCResult :=
  let lines := jsSplitLines content
  let style := COMMENT_STYLES language
  let total := lines.length
  let final := lines.foldl (countStep style)
    { code := 0, comments := 0, blank := 0, inBlockComment := false }
  { total := total, code := final.code, comments := final.comments
    blank := final.blank }

/-! ## Event collector (`src/core/collector.ts`)

Only the parts the metrics claims depend on are embedded: the session store
that `getSession` reads and the event fold `calculateMetrics`.  Event
timestamps are modelled as rationals (the epoch-milliseconds value of the
ISO timestamp); payload fields no in-scope code reads are elided. -/

/-- Status of a metering session. -/
inductive SessionStatus where
  | active
  | completed
  | failed
deriving DecidableEq, Repr

/-- Metadata about a session. -/
structure SessionMetadata where
  id : String
  status : SessionStatus
  startedAt : ℚ
  endedAt : Option ℚ := none
  success : Option Bool := none
deriving DecidableEq, Repr

/-- A validated event, as `calculateMetrics` consumes it. -/
inductive MeterEvent where
  | session_start (sessionId : String) (timestamp : ℚ)
  | session_end (sessionId : String) (timestamp : ℚ) (success : Bool)
  | iteration_start (sessionId : String) (timestamp : ℚ) (iterationNumber : Nat)
      (storyId : String)
  | iteration_end (sessionId : String) (timestamp : ℚ) (iterationNumber : Nat)
      (storyId : String) (success : Bool)
  | tokens_in (sessionId : String) (timestamp : ℚ) (count : Nat)
  | tokens_out (sessionId : String) (timestamp : ℚ) (count : Nat)
  | compilation_result (sessionId : String) (timestamp : ℚ) (success : Bool)
  | test_result (sessionId : String) (timestamp : ℚ) (success : Bool)
  | story_complete (sessionId : String) (timestamp : ℚ) (passes : Bool)
deriving DecidableEq, Repr

/-- A session with all its events. -/
structure Session where
  metadata : SessionMetadata
  events : List MeterEvent
deriving DecidableEq, Repr

/-- Basic metrics calculated from session events. -/
structure SessionMetrics where
  totalIterations : Nat
  totalTokensIn : Nat
  totalTokensOut : Nat
  compilationAttempts : Nat
  compilationSuccesses : Nat
  testAttempts : Nat
  testSuccesses : Nat
  storiesCompleted : Nat
  storiesPassed : Nat
deriving DecidableEq, Repr

/-- Error codes of `CollectorError`. -/
inductive CollectorErrorCode where
  | SESSION_NOT_FOUND
  | SESSION_ALREADY_EXISTS
  | SESSION_NOT_ACTIVE
  | VALIDATION_ERROR
  | INVALID_EVENT_ORDER
deriving DecidableEq, Repr

/-- Error type for collector operations. -/
structure CollectorError where
  code : CollectorErrorCode
  message : String
deriving DecidableEq, Repr

/-- The `EventCollector` state: its in-memory session map. -/
structure EventCollector where
  sessions : List (String × Session)
deriving DecidableEq, Repr

namespace EventCollector

/-- `getSession(id)`. -/
def getSession (c : EventCollector) (id : String) : Result Session CollectorError :=
  match mapGet c.sessions id with
  | none =>
      .err { code := .SESSION_NOT_FOUND, message := "Session not found: " ++ id }
  | some session => .ok session

/-- One iteration of the `calculateMetrics` fold. -/
def metricsStep (m : SessionMetrics) : MeterEvent → SessionMetrics
  | .iteration_end _ _ _ _ _ => { m with totalIterations := m.totalIterations + 1 }
  | .tokens_in _ _ count => { m with totalTokensIn := m.totalTokensIn + count }
  | .tokens_out _ _ count => { m with totalTokensOut := m.totalTokensOut + count }
  | .compilation_result _ _ success =>
      { m with compilationAttempts := m.compilationAttempts + 1
               compilationSuccesses :=
                 m.compilationSuccesses + (if success then 1 else 0) }
  | .test_result _ _ success =>
      { m with testAttempts := m.testAttempts + 1
               testSuccesses := m.testSuccesses + (if success then 1 else 0) }
  | .story_complete _ _ passes =>
      { m with storiesCompleted := m.storiesCompleted + 1
               storiesPassed := m.storiesPassed + (if passes then 1 else 0) }
  | _ => m

/-- `calculateMetrics(session)`. -/
def calculateMetrics (session : Session) : SessionMetrics :=
  session.events.foldl metricsStep
    { totalIterations := 0, totalTokensIn := 0, totalTokensOut := 0
      compilationAttempts := 0, compilationSuccesses := 0
      testAttempts := 0, testSuccesses := 0
      storiesCompleted := 0, storiesPassed := 0 }

/-- `getMetrics(sessionId)`. -/
def getMetrics (c : EventCollector) (sessionId : String) :
    Result SessionMetrics CollectorError :=
  match c.getSession sessionId with
  | .err e => .err e
  | .ok session => .ok (calculateMetrics session)

end EventCollector

/-! ## Metrics calculator (`src/schemas/index.ts`) -/

/-- Result of counting a specific file (`FileResult extends LOCResult`). -/
structure FileResult where
  locResult : LOCResult
  path : String
  language : Language
deriving DecidableEq, Repr

/-- `Record<Language, LOCResult>`. -/
structure ByLanguage where
  typescript : LOCResult
  javascript : LOCResult
  python : LOCResult
  unknown : LOCResult
deriving DecidableEq, Repr

/-- Codebase snapshot result. -/
structure CodebaseSnapshot where
  rootPath : String
  timestamp : String
  totals : LOCResult
  files : List FileResult
  byLanguage : ByLanguage
deriving DecidableEq, Repr

/-- Computed metrics for a session. -/
structure ComputedMetrics where
  verifiedLOC : Nat
  totalLOC : Nat
  verificationRate : ℚ
  locPerMinute : ℚ
  vlocPerMinute : ℚ
  tokensPerLOC : ℚ
  poeLOC : ℚ
  totalMinutes : ℚ
  totalTokens : Nat
  codeLines : Nat
  commentLines : Nat
  blankLines : Nat
deriving DecidableEq, Repr

/-- Synth trend data point. -/
structure SynthTrendPoint where
  storyId : String
  timestamp : String
  cumulativeTokens : Nat
  loc : Nat
  synth : ℚ
  synthDelta : ℚ
deriving DecidableEq, Repr

/-- Error codes of `MetricsError`. -/
inductive MetricsErrorCode where
  | SESSION_NOT_FOUND
  | NO_LOC_DATA
  | CALCULATION_ERROR
deriving DecidableEq, Repr

/-- Error type for metrics operations. -/
structure MetricsError where
  code : MetricsErrorCode
  message : String
deriving DecidableEq, Repr

/-- The mutable state of a `MetricsCalculator`: Synth trend history per
session.  The collaborating `EventCollector` and `GateTracker` are passed
explicitly to each operation. -/
structure MetricsCalculatorState where
  synthTrends : List (String × List SynthTrendPoint)
deriving DecidableEq, Repr

namespace MetricsCalculator

/-- `calculateSessionDuration(startedAt, endedAt?)` in minutes; `now` models
`Date.now()`. -/
def calculateSessionDuration (now startedAt : ℚ) (endedAt : Option ℚ) : ℚ :=
  ((endedAt.getD now) - startedAt) / (1000 * 60)

/-- `calculate(sessionId, codebaseSnapshot)`. -/
def calculate (collector : EventCollector) (gateTracker : GateTracker)
    (sessionId : String) (codebaseSnapshot : CodebaseSnapshot) (now : ℚ) :
    Result ComputedMetrics MetricsError :=
  match collector.getSession sessionId with
  | .err _ =>
      .err { code := .SESSION_NOT_FOUND
             message := "Session not found: " ++ sessionId }
  | .ok session =>
      match collector.getMetrics sessionId with
      | .err _ =>
          .err { code := .SESSION_NOT_FOUND
                 message := "Cannot get metrics for session: " ++ sessionId }
      | .ok sessionMetrics =>
          let gateStatsResult := gateTracker.getSessionStats sessionId
          let verifiedLOC : Nat :=
            match gateStatsResult with | .ok s => s.verifiedLines | .err _ => 0
          let overallPoE : ℚ :=
            match gateStatsResult with | .ok s => s.overallPoE | .err _ => 0
          let totalLOC := codebaseSnapshot.totals.total
          let codeLines := codebaseSnapshot.totals.code
          let commentLines := codebaseSnapshot.totals.comments
          let blankLines := codebaseSnapshot.totals.blank
          if totalLOC = 0 then
            .err { code := .NO_LOC_DATA
                   message := "No lines of code in codebase snapshot" }
          else
            let verificationRate : ℚ :=
              if totalLOC > 0 then (verifiedLOC : ℚ) / (totalLOC : ℚ) else 0
            let totalMinutes := calculateSessionDuration now
              session.metadata.startedAt session.metadata.endedAt
            let locPerMinute : ℚ :=
              if totalMinutes > 0 then (totalLOC : ℚ) / totalMinutes else 0
            let vlocPerMinute : ℚ :=
              if totalMinutes > 0 then (verifiedLOC : ℚ) / totalMinutes else 0
            let totalTokens :=
              sessionMetrics.totalTokensIn + sessionMetrics.totalTokensOut
            let tokensPerLOC : ℚ :=
              if totalLOC > 0 then (totalTokens : ℚ) / (totalLOC : ℚ) else 0
            let poeLOC := overallPoE
            .ok { verifiedLOC := verifiedLOC, totalLOC := totalLOC
                  verificationRate := verificationRate
                  locPerMinute := locPerMinute, vlocPerMinute := vlocPerMinute
                  tokensPerLOC := tokensPerLOC, poeLOC := poeLOC
                  totalMinutes := totalMinutes, totalTokens := totalTokens
                  codeLines := codeLines, commentLines := commentLines
                  blankLines := blankLines }

/-- `recordSynthMeasurement(sessionId, storyId, codebaseSnapshot)`; `nowIso`
models `new Date().toISOString()`.  Returns the operation's `Result` together
with the updated trend state. -/
def recordSynthMeasurement (collector : EventCollector)
    (mc : MetricsCalculatorState) (sessionId storyId : String)
    (codebaseSnapshot : CodebaseSnapshot) (nowIso : String) :
    Result SynthTrendPoint MetricsError × MetricsCalculatorState :=
  match collector.getMetrics sessionId with
  | .err _ =>
      (.err { code := .SESSION_NOT_FOUND
              message := "Session not found: " ++ sessionId }, mc)
  | .ok sessionMetrics =>
      let totalTokens :=
        sessionMetrics.totalTokensIn + sessionMetrics.totalTokensOut
      let loc := codebaseSnapshot.totals.total
      if loc = 0 then
        (.err { code := .NO_LOC_DATA
                message := "No lines of code in codebase snapshot" }, mc)
      else
        let synth : ℚ := (totalTokens : ℚ) / (loc : ℚ)
        let existing := (mapGet mc.synthTrends sessionId).getD []
        let previousSynth : ℚ :=
          if existing.length > 0 then
            ((existing.getLast?).map SynthTrendPoint.synth).getD 0
          else 0
        let synthDelta := synth - previousSynth
        let point : SynthTrendPoint :=
          { storyId := storyId, timestamp := nowIso
            cumulativeTokens := totalTokens, loc := loc
            synth := synth, synthDelta := synthDelta }
        if existing.length > 0 then
          (.ok point,
            { synthTrends := mapSet mc.synthTrends sessionId (existing ++ [point]) })
        else
          (.ok point, { synthTrends := mapSet mc.synthTrends sessionId [point] })

/-- `getSynthTrend(sessionId)`. -/
def getSynthTrend (mc : MetricsCalculatorState) (sessionId : String) :
    List SynthTrendPoint :=
  (mapGet mc.synthTrends sessionId).getD []

end MetricsCalculator

open GateTracker

/-! ## Spec-side view of a session's observations

These definitions transcribe the specification's vocabulary ("the observations
a gate recorded for a line", "the AND-reduction of that gate's observations",
…) so that the claims can be stated against them and compared with what the
embedded code computes. -/

/-- All line observations of a session's result list, in recording order. -/
def flattenObs (results : List GateVerificationResult) : List Obs :=
  results.flatMap (fun r =>
    r.lineResults.map (fun lr =>
      { gate := r.gate, filePath := r.filePath, lineNumber := lr.lineNumber
        passed := lr.passed }))

/-- The `passed` values of every observation gate `g` recorded for line `k`. -/
def gateObs (obs : List Obs) (g : Gate) (k : String × Nat) : List Bool :=
  (obs.filter (fun o => o.gate = g && obsKey o = k)).map Obs.passed

/-- The `passed` values of every observation (of any gate) for line `k`. -/
def keyPasses (obs : List Obs) (k : String × Nat) : List Bool :=
  (obs.filter (fun o => obsKey o = k)).map Obs.passed

/-- Whether any gate recorded an observation for line `k`. -/
def touched (obs : List Obs) (k : String × Nat) : Bool :=
  obs.any (fun o => obsKey o = k)

/-- AND-reduction of a list of booleans (`true` on the empty list). -/
def andAll (l : List Bool) : Bool := l.all id

/-- AND-reduction of a possibly empty observation history: `none` when the
line was never observed, `some` of the conjunction otherwise. -/
def optAnd (l : List Bool) : Option Bool :=
  if l = [] then none else some (andAll l)

/-- The line status the specification predicts for line `k` after the
observations `obs`: per-gate AND-reductions, `verified` not yet computed. -/
def mkStatus (obs : List Obs) (k : String × Nat) : LineVerificationStatus :=
  { location := { filePath := k.1, lineNumber := k.2 }
    g1Passed := optAnd (gateObs obs .G1_COMPILE k)
    g2Passed := optAnd (gateObs obs .G2_CORRECT k)
    g3Passed := optAnd (gateObs obs .G3_REACHABLE k)
    verified := false }

/-- The specification's verification criterion for a line: (1) at least one
gate recorded an observation for it, and (2) every gate that is required and
not skipped and that checked the line has a passing AND-reduction. -/
def specVerifiedB (cfg : GateConfiguration) (obs : List Obs) (k : String × Nat) : Bool :=
  (ALL_GATES.any (fun g => !(gateObs obs g k).isEmpty)) &&
  (ALL_GATES.all (fun g =>
      !((cfg.get g).required && !(cfg.get g).skip && !(gateObs obs g k).isEmpty) ||
        andAll (gateObs obs g k)))

/-- The number of distinct observed lines satisfying the specification's
verification criterion. -/
def specVerifiedLines (cfg : GateConfiguration)
    (results : List GateVerificationResult) : Nat :=
  (((flattenObs results).map obsKey).dedup.filter
    (fun k => specVerifiedB cfg (flattenObs results) k)).length

/-- The gates the specification's PoE product ranges over: `required = true`
and `skip = false` under the current policy. -/
def specApplicableGates (cfg : GateConfiguration) : List Gate :=
  ALL_GATES.filter (fun g => (cfg.get g).required && !(cfg.get g).skip)

/-- The specification's session PoE: `1 - Π(1 - poe_g)` over applicable
gates, `0` if there is none; `poe_g` is gate `g`'s `gateStats` PoE. -/
def specOverallPoE (cfg : GateConfiguration)
    (results : List GateVerificationResult) : ℚ :=
  if specApplicableGates cfg = [] then 0
  else
    1 - ((specApplicableGates cfg).map
      (fun g => 1 - (GateTracker.gateStatsOf results g).poe)).prod

/-- Spec-side total token count of a session: the sum of every recorded
tokens-in and tokens-out count. -/
def specTotalTokens (session : Session) : Nat :=
  (session.events.map (fun e =>
    match e with
    | .tokens_in _ _ count => count
    | .tokens_out _ _ count => count
    | _ => 0)).sum

/-- The per-point delta contract of a Synth trend list: each point's delta is
its synth minus the previous point's synth, the first point's minus `prev`
(`0` at the head of a session's trend). -/
def trendDeltasOk : ℚ → List SynthTrendPoint → Prop
  | _, [] => True
  | prev, p :: rest => p.synthDelta = p.synth - prev ∧ trendDeltasOk p.synth rest

/-- The inputs of one `recordSynthMeasurement` call (the collector may have
accumulated more events between calls, so each call carries its own). -/
structure SynthCall where
  collector : EventCollector
  storyId : String
  snapshot : CodebaseSnapshot
  nowIso : String

/-- Running a sequence of `recordSynthMeasurement` calls for one session,
starting from a given calculator state (failed calls leave it unchanged). -/
def runSynthCalls (sessionId : String) (mc : MetricsCalculatorState)
    (calls : List SynthCall) : MetricsCalculatorState :=
  calls.foldl
    (fun st c =>
      (MetricsCalculator.recordSynthMeasurement c.collector st sessionId
        c.storyId c.snapshot c.nowIso).2)
    mc

/-- Invariant tying the in-construction per-line status map to the prefix of
observations already folded in. -/
def StatusMapOk (obs : List Obs)
    (m : List ((String × Nat) × LineVerificationStatus)) : Prop :=
  (m.map Prod.fst).Nodup ∧
  (∀ k, k ∈ m.map Prod.fst ↔ touched obs k = true) ∧
  (∀ p ∈ m, p.2 = mkStatus obs p.1)

/-- Invariant tying the in-construction per-line pass map of one gate to the
prefix of (gate-filtered) observations already folded in. -/
def PassMapOk (obs : List Obs) (m : List ((String × Nat) × Bool)) : Prop :=
  (m.map Prod.fst).Nodup ∧
  (∀ k, k ∈ m.map Prod.fst ↔ keyPasses obs k ≠ []) ∧
  (∀ p ∈ m, p.2 = andAll (keyPasses obs p.1))

/-! ## Concrete instances used by the witnesses and the counterexample -/

/-- A one-observation input: G1 passes line 1 of file `f`. -/
def wInput : GateVerificationInput :=
  { timestamp := "t", gate := .G1_COMPILE, filePath := "f"
    lineResults := [{ lineNumber := 1, passed := true }] }

/-- A tracker holding one recorded result for session `s`. -/
def wTracker : GateTracker := (GateTracker.init.record "s" wInput).2

/-- The result list session `s` of `wTracker` holds. -/
def wResults : List GateVerificationResult :=
  [{ sessionId := "s", timestamp := "t", gate := .G1_COMPILE, filePath := "f"
     lineResults := [{ lineNumber := 1, passed := true }] }]

/-- `wTracker` with G1's threshold lowered to `0` (all else unchanged). -/
def c8Other : GateTracker :=
  (wTracker.setConfig { G1_COMPILE := some { threshold := some 0 } }).2

/-- Ten line results for lines `1..10`, the first `n` passing. -/
def c2Lines (n : Nat) : List LineResult :=
  (List.range 10).map (fun i => { lineNumber := i + 1, passed := decide (i < n) })

/-- The specification's PoE scenario: G1 8/10, G2 7/10, G3 9/10, all
recorded for session `s`. -/
def c2Tracker : GateTracker :=
  let t1 := (GateTracker.init.record "s"
    { timestamp := "t", gate := .G1_COMPILE, filePath := "f"
      lineResults := c2Lines 8 }).2
  let t2 := (t1.record "s"
    { timestamp := "t", gate := .G2_CORRECT, filePath := "f"
      lineResults := c2Lines 7 }).2
  (t2.record "s"
    { timestamp := "t", gate := .G3_REACHABLE, filePath := "f"
      lineResults := c2Lines 9 }).2

/-- The result list session `s` of `c2Tracker` holds. -/
def c2Results : List GateVerificationResult :=
  [{ sessionId := "s", timestamp := "t", gate := .G1_COMPILE, filePath := "f"
     lineResults := c2Lines 8 },
   { sessionId := "s", timestamp := "t", gate := .G2_CORRECT, filePath := "f"
     lineResults := c2Lines 7 },
   { sessionId := "s", timestamp := "t", gate := .G3_REACHABLE, filePath := "f"
     lineResults := c2Lines 9 }]

/-- The skip-after-the-fact scenario: line 1 of `f` passes G1 and G3, fails
G2; only after all three observations are recorded is G2 marked `skip`. -/
def c3Tracker : GateTracker :=
  let t1 := (GateTracker.init.record "s"
    { timestamp := "t", gate := .G1_COMPILE, filePath := "f"
      lineResults := [{ lineNumber := 1, passed := true }] }).2
  let t2 := (t1.record "s"
    { timestamp := "t", gate := .G2_CORRECT, filePath := "f"
      lineResults := [{ lineNumber := 1, passed := false }] }).2
  let t3 := (t2.record "s"
    { timestamp := "t", gate := .G3_REACHABLE, filePath := "f"
      lineResults := [{ lineNumber := 1, passed := true }] }).2
  (t3.setConfig { G2_CORRECT := some { skip := some true } }).2

/-- The result list session `s` of `c3Tracker` holds. -/
def c3Results : List GateVerificationResult :=
  [{ sessionId := "s", timestamp := "t", gate := .G1_COMPILE, filePath := "f"
     lineResults := [{ lineNumber := 1, passed := true }] },
   { sessionId := "s", timestamp := "t", gate := .G2_CORRECT, filePath := "f"
     lineResults := [{ lineNumber := 1, passed := false }] },
   { sessionId := "s", timestamp := "t", gate := .G3_REACHABLE, filePath := "f"
     lineResults := [{ lineNumber := 1, passed := true }] }]

/-- Two G1 results for the same line, the second failing. -/
def c4A : List GateVerificationResult :=
  [{ sessionId := "s", timestamp := "t", gate := .G1_COMPILE, filePath := "f"
     lineResults := [{ lineNumber := 1, passed := true }] },
   { sessionId := "s", timestamp := "t", gate := .G1_COMPILE, filePath := "f"
     lineResults := [{ lineNumber := 1, passed := false }] }]

/-- `c4A` with the two results swapped. -/
def c4B : List GateVerificationResult :=
  [{ sessionId := "s", timestamp := "t", gate := .G1_COMPILE, filePath := "f"
     lineResults := [{ lineNumber := 1, passed := false }] },
   { sessionId := "s", timestamp := "t", gate := .G1_COMPILE, filePath := "f"
     lineResults := [{ lineNumber := 1, passed := true }] }]

/-- A partial policy update supplying an out-of-range threshold for G2. -/
def c9Bad : PartialGateConfiguration :=
  { G2_CORRECT := some { threshold := some 2 } }

/-- A `record` input with a recognized gate and no line results. -/
def c10Input : GateVerificationInput :=
  { timestamp := "t", gate := .G1_COMPILE, filePath := "f", lineResults := [] }

/-- A session that consumed 10000 input and 5000 output tokens. -/
def wSession : Session :=
  { metadata := { id := "s", status := .active, startedAt := 0 }
    events := [.session_start "s" 0, .tokens_in "s" 1 10000,
      .tokens_out "s" 2 5000] }

/-- The same session after consuming twice the tokens. -/
def wSession2 : Session :=
  { metadata := { id := "s", status := .active, startedAt := 0 }
    events := [.session_start "s" 0, .tokens_in "s" 1 10000,
      .tokens_out "s" 2 5000, .tokens_in "s" 3 10000, .tokens_out "s" 4 5000] }

/-- A collector knowing `wSession`. -/
def wCollector : EventCollector := { sessions := [("s", wSession)] }

/-- A collector knowing `wSession2`. -/
def wCollector2 : EventCollector := { sessions := [("s", wSession2)] }

/-- A 300-line snapshot. -/
def wSnapshot : CodebaseSnapshot :=
  { rootPath := "/r", timestamp := "t"
    totals := { total := 300, code := 250, comments := 30, blank := 20 }
    files := []
    byLanguage :=
      { typescript := { total := 300, code := 250, comments := 30, blank := 20 }
        javascript := { total := 0, code := 0, comments := 0, blank := 0 }
        python := { total := 0, code := 0, comments := 0, blank := 0 }
        unknown := { total := 0, code := 0, comments := 0, blank := 0 } } }

/-- First Synth checkpoint: 15000 tokens over 300 lines. -/
def wCall1 : SynthCall :=
  { collector := wCollector, storyId := "s1", snapshot := wSnapshot
    nowIso := "t1" }

/-- Second Synth checkpoint: 30000 tokens over 300 lines. -/
def wCall2 : SynthCall :=
  { collector := wCollector2, storyId := "s2", snapshot := wSnapshot
    nowIso := "t2" }

/-- The trend point the first checkpoint records. -/
def wPoint1 : SynthTrendPoint :=
  { storyId := "s1", timestamp := "t1", cumulativeTokens := 15000, loc := 300
    synth := 50, synthDelta := 50 }

/-- The trend point the second checkpoint records. -/
def wPoint2 : SynthTrendPoint :=
  { storyId := "s2", timestamp := "t2", cumulativeTokens := 30000, loc := 300
    synth := 100, synthDelta := 50 }

/-- The Synth trend produced by running the two example checkpoints. -/
def wTrendRun : List SynthTrendPoint :=
  MetricsCalculator.getSynthTrend
    (runSynthCalls "s" { synthTrends := [] } [wCall1, wCall2]) "s"

/-! ## Lemmas about the `Map` model -/

section MapLemmas

variable {α β : Type} [DecidableEq α]

theorem mapGet_nil (k : α) : mapGet ([] : List (α × β)) k = none := rfl

theorem mapGet_cons (p : α × β) (m : List (α × β)) (k : α) :
    mapGet (p :: m) k = if p.1 = k then some p.2 else mapGet m k := by
  by_cases h : p.1 = k <;> simp [mapGet, List.find?_cons, h]

theorem mapGet_mapSet_self (m : List (α × β)) (k : α) (v : β) :
    mapGet (mapSet m k v) k = some v := by
  induction m with
  | nil => simp [mapSet, mapGet_cons]
  | cons p rest ih =>
      by_cases h : p.1 = k
      · simp [mapSet, h, mapGet_cons]
      · simp [mapSet, h, mapGet_cons, ih]

theorem mapGet_mapSet_ne (m : List (α × β)) (k k' : α) (v : β) (h : k' ≠ k) :
    mapGet (mapSet m k v) k' = mapGet m k' := by
  have hk : k ≠ k' := Ne.symm h
  induction m with
  | nil => simp [mapSet, mapGet_cons, mapGet_nil, hk]
  | cons p rest ih =>
      by_cases hp : p.1 = k
      · subst hp
        simp [mapSet, mapGet_cons, hk]
      · simp [mapSet, hp, mapGet_cons, ih]

theorem keys_mapSet_of_mem {m : List (α × β)} {k : α} (v : β)
    (h : k ∈ m.map Prod.fst) : (mapSet m k v).map Prod.fst = m.map Prod.fst := by
  induction m with
  | nil => simp at h
  | cons p rest ih =>
      by_cases hp : p.1 = k
      · simp [mapSet, hp]
      · simp only [List.map_cons, List.mem_cons] at h
        rcases h with h | h
        · exact absurd h.symm hp
        · simp [mapSet, hp, ih h]

theorem keys_mapSet_of_not_mem {m : List (α × β)} {k : α} (v : β)
    (h : k ∉ m.map Prod.fst) :
    (mapSet m k v).map Prod.fst = m.map Prod.fst ++ [k] := by
  induction m with
  | nil => simp [mapSet]
  | cons p rest ih =>
      simp only [List.map_cons, List.mem_cons] at h
      push_neg at h
      simp [mapSet, Ne.symm h.1, ih h.2]

theorem mapGet_isSome_iff (m : List (α × β)) (k : α) :
    (mapGet m k).isSome ↔ k ∈ m.map Prod.fst := by
  induction m with
  | nil => simp [mapGet_nil]
  | cons p rest ih =>
      rw [mapGet_cons]
      by_cases hp : p.1 = k
      · simp [hp]
      · rw [if_neg hp]
        simp only [List.map_cons, List.mem_cons, ih]
        constructor
        · exact Or.inr
        · rintro (h | h)
          · exact absurd h.symm hp
          · exact h

theorem mapGet_eq_none_iff (m : List (α × β)) (k : α) :
    mapGet m k = none ↔ k ∉ m.map Prod.fst := by
  rw [← mapGet_isSome_iff, Option.not_isSome_iff_eq_none]

theorem mem_mapSet_iff {m : List (α × β)} (hnd : (m.map Prod.fst).Nodup)
    (k : α) (v : β) (p : α × β) :
    p ∈ mapSet m k v ↔ p = (k, v) ∨ (p ∈ m ∧ p.1 ≠ k) := by
  induction m with
  | nil => simp [mapSet]
  | cons q rest ih =>
      simp only [List.map_cons, List.nodup_cons] at hnd
      by_cases hq : q.1 = k
      · simp only [mapSet, if_pos hq, List.mem_cons]
        constructor
        · rintro (rfl | hp)
          · exact Or.inl rfl
          · have hpk : p.1 ≠ k := by
              intro hk
              apply hnd.1
              rw [hq, ← hk]
              exact List.mem_map_of_mem Prod.fst hp
            exact Or.inr ⟨Or.inr hp, hpk⟩
        · rintro (rfl | ⟨hp, hne⟩)
          · exact Or.inl rfl
          · rcases hp with rfl | hp
            · exact absurd hq hne
            · exact Or.inr hp
      · simp only [mapSet, if_neg hq, List.mem_cons, ih hnd.2]
        constructor
        · rintro (rfl | h)
          · exact Or.inr ⟨Or.inl rfl, hq⟩
          · rcases h with rfl | ⟨hp, hne⟩
            · exact Or.inl rfl
            · exact Or.inr ⟨Or.inr hp, hne⟩
        · rintro (rfl | ⟨hp, hne⟩)
          · exact Or.inr (Or.inl rfl)
          · rcases hp with rfl | hp
            · exact Or.inl rfl
            · exact Or.inr (Or.inr ⟨hp, hne⟩)

theorem mapGet_of_mem {m : List (α × β)} (hnd : (m.map Prod.fst).Nodup)
    {p : α × β} (hp : p ∈ m) : mapGet m p.1 = some p.2 := by
  induction m with
  | nil => simp at hp
  | cons q rest ih =>
      simp only [List.map_cons, List.nodup_cons] at hnd
      rcases List.mem_cons.mp hp with rfl | hp
      · simp [mapGet_cons]
      · have hne : q.1 ≠ p.1 := by
          intro hk
          apply hnd.1
          rw [hk]
          exact List.mem_map_of_mem Prod.fst hp
        simp [mapGet_cons, hne, ih hnd.2 hp]

theorem mapGet_append_of_none {m m' : List (α × β)} {k : α}
    (h : mapGet m k = none) : mapGet (m ++ m') k = mapGet m' k := by
  induction m with
  | nil => simp
  | cons p rest ih =>
      rw [mapGet_cons] at h
      by_cases hp : p.1 = k
      · simp [hp] at h
      · rw [if_neg hp] at h
        simpa [mapGet_cons, hp] using ih h

theorem mem_of_mapGet {m : List (α × β)} {k : α} {v : β}
    (h : mapGet m k = some v) : (k, v) ∈ m := by
  induction m with
  | nil => simp [mapGet_nil] at h
  | cons p rest ih =>
      rw [mapGet_cons] at h
      by_cases hp : p.1 = k
      · rw [if_pos hp] at h
        have hv : p.2 = v := by injection h
        have hpkv : p = (k, v) := by
          cases p
          simp only [Prod.mk.injEq]
          exact ⟨hp, hv⟩
        rw [← hpkv]
        exact List.mem_cons_self _ _
      · rw [if_neg hp] at h
        exact List.mem_cons_of_mem _ (ih h)

theorem mapSet_of_not_mem {m : List (α × β)} {k : α} (v : β)
    (h : k ∉ m.map Prod.fst) : mapSet m k v = m ++ [(k, v)] := by
  induction m with
  | nil => rfl
  | cons p rest ih =>
      simp only [List.map_cons, List.mem_cons] at h
      push_neg at h
      simp [mapSet, Ne.symm h.1, ih h.2]

end MapLemmas

/-! ## AND-reduction lemmas -/

theorem andAll_concat (l : List Bool) (b : Bool) :
    andAll (l ++ [b]) = (andAll l && b) := by
  cases l with
  | nil => simp [andAll]
  | cons x xs =>
      simp only [andAll, List.all_append, List.all_cons, List.all_nil,
        Bool.and_true, id_eq]

theorem optAnd_concat (l : List Bool) (b : Bool) :
    optAnd (l ++ [b]) =
      some (match optAnd l with | none => b | some c => c && b) := by
  cases l with
  | nil => simp [optAnd, andAll]
  | cons x xs =>
      simp only [optAnd, andAll]
      rw [if_neg (by simp), if_neg (by simp)]
      simp only [List.all_append, List.all_cons, List.all_nil, Bool.and_true,
        id_eq]

theorem optAnd_isSome (l : List Bool) : (optAnd l).isSome = !l.isEmpty := by
  cases l <;> simp [optAnd]

theorem optAnd_eq_some_false (l : List Bool) :
    (optAnd l == some false) = (!l.isEmpty && !andAll l) := by
  cases l with
  | nil => simp [optAnd]
  | cons x xs =>
      simp only [optAnd, List.isEmpty_cons]
      rw [if_neg (List.cons_ne_nil x xs)]
      cases andAll (x :: xs) <;> rfl

/-! ## Characterization of `lineVerificationMapOf` -/

theorem obsKey_fst (o : Obs) : (obsKey o).1 = o.filePath := rfl

theorem obsKey_snd (o : Obs) : (obsKey o).2 = o.lineNumber := rfl

theorem flattenObs_cons (r : GateVerificationResult)
    (rs : List GateVerificationResult) :
    flattenObs (r :: rs) =
      r.lineResults.map (fun lr =>
        { gate := r.gate, filePath := r.filePath, lineNumber := lr.lineNumber
          passed := lr.passed }) ++ flattenObs rs := by
  rw [flattenObs, flattenObs, List.flatMap_cons]

theorem gateObs_append (obs : List Obs) (o : Obs) (g : Gate) (k : String × Nat) :
    gateObs (obs ++ [o]) g k =
      gateObs obs g k ++ (if o.gate = g ∧ obsKey o = k then [o.passed] else []) := by
  rw [gateObs, gateObs, List.filter_append, List.map_append]
  congr 1
  by_cases h1 : o.gate = g
  · by_cases h2 : obsKey o = k
    · simp [h1, h2]
    · simp [h1, h2]
  · simp [h1]

theorem keyPasses_append (obs : List Obs) (o : Obs) (k : String × Nat) :
    keyPasses (obs ++ [o]) k =
      keyPasses obs k ++ (if obsKey o = k then [o.passed] else []) := by
  rw [keyPasses, keyPasses, List.filter_append, List.map_append]
  congr 1
  by_cases h : obsKey o = k <;> simp [h]

theorem touched_append (obs : List Obs) (o : Obs) (k : String × Nat) :
    touched (obs ++ [o]) k = (touched obs k || decide (obsKey o = k)) := by
  simp [touched]

theorem gateObs_nil_of_not_touched {obs : List Obs} {k : String × Nat}
    (h : touched obs k = false) (g : Gate) : gateObs obs g k = [] := by
  rw [touched, List.any_eq_false] at h
  rw [gateObs, List.map_eq_nil_iff, List.filter_eq_nil_iff]
  intro o ho
  have hk := h o ho
  simp only [decide_eq_false_iff_not] at hk
  simp [hk]

theorem mkStatus_append_ne (obs : List Obs) (o : Obs) (k : String × Nat)
    (h : obsKey o ≠ k) : mkStatus (obs ++ [o]) k = mkStatus obs k := by
  simp [mkStatus, gateObs_append, h]

theorem updateGateStatus_mkStatus (obs : List Obs) (o : Obs) :
    updateGateStatus (mkStatus obs (obsKey o)) o.gate o.passed =
      mkStatus (obs ++ [o]) (obsKey o) := by
  cases hg : o.gate with
  | G1_COMPILE =>
      rcases h1 : optAnd (gateObs obs .G1_COMPILE (obsKey o)) with _ | b <;>
        simp [updateGateStatus, mkStatus, gateObs_append, hg, optAnd_concat, h1]
  | G2_CORRECT =>
      rcases h1 : optAnd (gateObs obs .G2_CORRECT (obsKey o)) with _ | b <;>
        simp [updateGateStatus, mkStatus, gateObs_append, hg, optAnd_concat, h1]
  | G3_REACHABLE =>
      rcases h1 : optAnd (gateObs obs .G3_REACHABLE (obsKey o)) with _ | b <;>
        simp [updateGateStatus, mkStatus, gateObs_append, hg, optAnd_concat, h1]

theorem statusStep_eq (obs : List Obs) (o : Obs)
    (m : List ((String × Nat) × LineVerificationStatus)) (h : StatusMapOk obs m) :
    statusStep m o = mapSet m (obsKey o) (mkStatus (obs ++ [o]) (obsKey o)) := by
  rcases hc : mapGet m (obsKey o) with _ | s
  · have htouch : touched obs (obsKey o) = false := by
      rw [mapGet_eq_none_iff] at hc
      cases ht : touched obs (obsKey o)
      · rfl
      · exact absurd ((h.2.1 (obsKey o)).mpr ht) hc
    have hfresh :
        ({ location := { filePath := o.filePath, lineNumber := o.lineNumber }
           verified := false } : LineVerificationStatus) = mkStatus obs (obsKey o) := by
      simp [mkStatus, obsKey_fst, obsKey_snd,
        gateObs_nil_of_not_touched htouch, optAnd]
    simp only [statusStep, hc]
    rw [hfresh, updateGateStatus_mkStatus]
  · have hmem : (obsKey o, s) ∈ m := mem_of_mapGet hc
    have hs : s = mkStatus obs (obsKey o) := h.2.2 (obsKey o, s) hmem
    simp only [statusStep, hc]
    rw [hs, updateGateStatus_mkStatus]

theorem statusMapOk_step (obs : List Obs) (o : Obs)
    (m : List ((String × Nat) × LineVerificationStatus)) (h : StatusMapOk obs m) :
    StatusMapOk (obs ++ [o]) (statusStep m o) := by
  rw [statusStep_eq obs o m h]
  obtain ⟨hnd, hmem, hval⟩ := h
  by_cases hk : obsKey o ∈ m.map Prod.fst
  · refine ⟨?_, ?_, ?_⟩
    · rw [keys_mapSet_of_mem _ hk]
      exact hnd
    · intro k'
      rw [keys_mapSet_of_mem _ hk, touched_append]
      by_cases hk' : obsKey o = k'
      · rw [← hk']
        simp [hk]
      · simp [hk', hmem k']
    · intro p hp
      rcases (mem_mapSet_iff hnd _ _ p).mp hp with rfl | ⟨hpm, hne⟩
      · rfl
      · rw [hval p hpm, mkStatus_append_ne]
        exact Ne.symm hne
  · rw [mapSet_of_not_mem _ hk]
    refine ⟨?_, ?_, ?_⟩
    · rw [List.map_append]
      simp only [List.map_cons, List.map_nil]
      rw [List.nodup_append]
      exact ⟨hnd, List.nodup_singleton _, by simpa using hk⟩
    · intro k'
      rw [List.map_append]
      simp only [List.map_cons, List.map_nil]
      rw [List.mem_append, touched_append]
      by_cases hk' : obsKey o = k'
      · rw [← hk']
        simp
      · simp [hk', Ne.symm hk', hmem k']
    · intro p hp
      rcases List.mem_append.mp hp with hpm | hp1
      · have hne : p.1 ≠ obsKey o := by
          intro he
          exact hk (he ▸ List.mem_map_of_mem Prod.fst hpm)
        rw [hval p hpm, mkStatus_append_ne]
        exact Ne.symm hne
      · rcases List.mem_singleton.mp hp1 with rfl
        rfl

theorem statusMapOk_foldl (obs : List Obs) :
    StatusMapOk obs (obs.foldl statusStep []) := by
  induction obs using List.reverseRecOn with
  | nil =>
      refine ⟨List.nodup_nil, ?_, ?_⟩
      · intro k
        simp [touched]
      · intro p hp
        simp at hp
  | append_singleton obs o ih =>
      rw [List.foldl_append]
      exact statusMapOk_step obs o _ ih

theorem foldl_statusStep_flatten (results : List GateVerificationResult)
    (init : List ((String × Nat) × LineVerificationStatus)) :
    results.foldl
      (fun lineMap result =>
        result.lineResults.foldl
          (fun lineMap lr =>
            statusStep lineMap
              { gate := result.gate, filePath := result.filePath
                lineNumber := lr.lineNumber, passed := lr.passed })
          lineMap)
      init
    = (flattenObs results).foldl statusStep init := by
  induction results generalizing init with
  | nil => rfl
  | cons r rs ih =>
      rw [List.foldl_cons, ih, flattenObs_cons, List.foldl_append, List.foldl_map]

theorem lineVerificationMapOf_eq (results : List GateVerificationResult) :
    lineVerificationMapOf results = (flattenObs results).foldl statusStep [] :=
  foldl_statusStep_flatten results []

theorem statusMapOk_lineVerificationMapOf (results : List GateVerificationResult) :
    StatusMapOk (flattenObs results) (lineVerificationMapOf results) := by
  rw [lineVerificationMapOf_eq]
  exact statusMapOk_foldl _

/-! ## Characterization of `gateLineMap` -/

theorem passStep_eq (obs : List Obs) (o : Obs) (m : List ((String × Nat) × Bool))
    (h : PassMapOk obs m) :
    passStep m o =
      mapSet m (obsKey o) (andAll (keyPasses (obs ++ [o]) (obsKey o))) := by
  have hkp : keyPasses (obs ++ [o]) (obsKey o) =
      keyPasses obs (obsKey o) ++ [o.passed] := by
    rw [keyPasses_append]
    simp
  rcases hc : mapGet m (obsKey o) with _ | existing
  · have hnil : keyPasses obs (obsKey o) = [] := by
      rw [mapGet_eq_none_iff] at hc
      by_cases hkp0 : keyPasses obs (obsKey o) = []
      · exact hkp0
      · exact absurd ((h.2.1 (obsKey o)).mpr hkp0) hc
    simp only [passStep, hc]
    rw [hkp, hnil]
    simp [andAll]
  · have hmem : (obsKey o, existing) ∈ m := mem_of_mapGet hc
    have hex : existing = andAll (keyPasses obs (obsKey o)) := h.2.2 _ hmem
    simp only [passStep, hc]
    rw [hkp, andAll_concat, hex]

theorem passMapOk_step (obs : List Obs) (o : Obs)
    (m : List ((String × Nat) × Bool)) (h : PassMapOk obs m) :
    PassMapOk (obs ++ [o]) (passStep m o) := by
  rw [passStep_eq obs o m h]
  obtain ⟨hnd, hmem, hval⟩ := h
  by_cases hk : obsKey o ∈ m.map Prod.fst
  · refine ⟨?_, ?_, ?_⟩
    · rw [keys_mapSet_of_mem _ hk]
      exact hnd
    · intro k'
      rw [keys_mapSet_of_mem _ hk, keyPasses_append]
      by_cases hk' : obsKey o = k'
      · rw [← hk', if_pos rfl]
        constructor
        · intro _
          simp
        · intro _
          exact hk
      · rw [if_neg hk']
        simp [hmem k']
    · intro p hp
      rcases (mem_mapSet_iff hnd _ _ p).mp hp with rfl | ⟨hpm, hne⟩
      · rfl
      · rw [hval p hpm, keyPasses_append, if_neg (Ne.symm hne)]
        simp
  · rw [mapSet_of_not_mem _ hk]
    refine ⟨?_, ?_, ?_⟩
    · rw [List.map_append]
      simp only [List.map_cons, List.map_nil]
      rw [List.nodup_append]
      exact ⟨hnd, List.nodup_singleton _, by simpa using hk⟩
    · intro k'
      rw [List.map_append]
      simp only [List.map_cons, List.map_nil]
      rw [List.mem_append, keyPasses_append]
      by_cases hk' : obsKey o = k'
      · rw [← hk', if_pos rfl]
        constructor
        · intro _
          simp
        · intro _
          exact Or.inr (List.mem_singleton.mpr rfl)
      · rw [if_neg hk']
        simp [hk', Ne.symm hk', hmem k']
    · intro p hp
      rcases List.mem_append.mp hp with hpm | hp1
      · have hne : p.1 ≠ obsKey o := by
          intro he
          exact hk (he ▸ List.mem_map_of_mem Prod.fst hpm)
        rw [hval p hpm, keyPasses_append, if_neg (Ne.symm hne)]
        simp
      · rcases List.mem_singleton.mp hp1 with rfl
        rfl

theorem passMapOk_foldl (obs : List Obs) :
    PassMapOk obs (obs.foldl passStep []) := by
  induction obs using List.reverseRecOn with
  | nil =>
      refine ⟨List.nodup_nil, ?_, ?_⟩
      · intro k
        simp [keyPasses]
      · intro p hp
        simp at hp
  | append_singleton obs o ih =>
      rw [List.foldl_append]
      exact passMapOk_step obs o _ ih

theorem foldl_passStep_flatten (results : List GateVerificationResult)
    (init : List ((String × Nat) × Bool)) :
    results.foldl
      (fun lineMap result =>
        result.lineResults.foldl
          (fun lineMap lr =>
            passStep lineMap
              { gate := result.gate, filePath := result.filePath
                lineNumber := lr.lineNumber, passed := lr.passed })
          lineMap)
      init
    = (flattenObs results).foldl passStep init := by
  induction results generalizing init with
  | nil => rfl
  | cons r rs ih =>
      rw [List.foldl_cons, ih, flattenObs_cons, List.foldl_append, List.foldl_map]

theorem gateLineMap_eq (results : List GateVerificationResult) (g : Gate) :
    gateLineMap results g =
      (flattenObs (results.filter (fun r => r.gate = g))).foldl passStep [] :=
  foldl_passStep_flatten (results.filter (fun r => r.gate = g)) []

theorem filter_map_of_forall_true {α β : Type} (p : β → Bool) (f : α → β)
    (l : List α) (h : ∀ a, p (f a) = true) : (l.map f).filter p = l.map f := by
  induction l with
  | nil => rfl
  | cons a l ih => simp [h a, ih]

theorem filter_map_of_forall_false {α β : Type} (p : β → Bool) (f : α → β)
    (l : List α) (h : ∀ a, p (f a) = false) : (l.map f).filter p = [] := by
  induction l with
  | nil => rfl
  | cons a l ih => simp [h a, ih]

theorem flattenObs_filter_gate (results : List GateVerificationResult) (g : Gate) :
    flattenObs (results.filter (fun r => r.gate = g)) =
      (flattenObs results).filter (fun o => o.gate = g) := by
  induction results with
  | nil => rfl
  | cons r rs ih =>
      by_cases hg : r.gate = g
      · rw [List.filter_cons_of_pos (by simp [hg]), flattenObs_cons, flattenObs_cons,
          List.filter_append, ih]
        congr 1
        exact (filter_map_of_forall_true _ _ _ (fun lr => by simp [hg])).symm
      · rw [List.filter_cons_of_neg (by simp [hg]), ih, flattenObs_cons,
          List.filter_append,
          filter_map_of_forall_false _ _ _ (fun lr => by simp [hg]),
          List.nil_append]

theorem keyPasses_filter_gate (obs : List Obs) (g : Gate) (k : String × Nat) :
    keyPasses (obs.filter (fun o => o.gate = g)) k = gateObs obs g k := by
  rw [keyPasses, gateObs, List.filter_filter]
  congr 1
  apply List.filter_congr
  intro o _
  simp [Bool.and_comm]

theorem gateObs_of_filtered (results : List GateVerificationResult) (g : Gate)
    (k : String × Nat) :
    keyPasses (flattenObs (results.filter (fun r => r.gate = g))) k =
      gateObs (flattenObs results) g k := by
  rw [flattenObs_filter_gate, keyPasses_filter_gate]

theorem gateLineMap_char (results : List GateVerificationResult) (g : Gate) :
    ((gateLineMap results g).map Prod.fst).Nodup ∧
    (∀ k, k ∈ (gateLineMap results g).map Prod.fst ↔
      gateObs (flattenObs results) g k ≠ []) ∧
    (∀ p ∈ gateLineMap results g, p.2 = andAll (gateObs (flattenObs results) g p.1)) := by
  have h : PassMapOk (flattenObs (results.filter (fun r => r.gate = g)))
      (gateLineMap results g) := by
    rw [gateLineMap_eq]
    exact passMapOk_foldl _
  obtain ⟨hnd, hmem, hval⟩ := h
  refine ⟨hnd, ?_, ?_⟩
  · intro k
    rw [hmem k, gateObs_of_filtered]
  · intro p hp
    rw [hval p hp, gateObs_of_filtered]

/-! ## The verdict of `isLineVerified` versus the specification criterion -/

theorem isLineVerified_mkStatus (t : GateTracker) (obs : List Obs) (k : String × Nat) :
    t.isLineVerified (mkStatus obs k) = specVerifiedB t.config obs k := by
  simp only [GateTracker.isLineVerified, specVerifiedB, mkStatus, ALL_GATES,
    List.any_cons, List.any_nil, List.all_cons, List.all_nil,
    GateConfiguration.get, optAnd_eq_some_false, optAnd_isSome]
  generalize (gateObs obs Gate.G1_COMPILE k).isEmpty = e1
  generalize (gateObs obs Gate.G2_CORRECT k).isEmpty = e2
  generalize (gateObs obs Gate.G3_REACHABLE k).isEmpty = e3
  generalize andAll (gateObs obs Gate.G1_COMPILE k) = a1
  generalize andAll (gateObs obs Gate.G2_CORRECT k) = a2
  generalize andAll (gateObs obs Gate.G3_REACHABLE k) = a3
  generalize t.config.G1_COMPILE.required = r1
  generalize t.config.G2_CORRECT.required = r2
  generalize t.config.G3_REACHABLE.required = r3
  generalize t.config.G1_COMPILE.skip = k1
  generalize t.config.G2_CORRECT.skip = k2
  generalize t.config.G3_REACHABLE.skip = k3
  revert e1 e2 e3 a1 a2 a3 r1 r2 r3 k1 k2 k3
  decide

/-! ## Read-path lemmas -/

theorem mem_insertByLine (x a : LineVerificationStatus)
    (l : List LineVerificationStatus) :
    a ∈ insertByLine x l ↔ a = x ∨ a ∈ l := by
  induction l with
  | nil => simp [insertByLine]
  | cons y ys ih =>
      rw [insertByLine]
      by_cases hle : y.location.lineNumber ≤ x.location.lineNumber
      · rw [if_pos hle]
        simp only [List.mem_cons, ih]
        tauto
      · rw [if_neg hle]
        simp only [List.mem_cons]

theorem mem_sortByLineNumber (a : LineVerificationStatus)
    (l : List LineVerificationStatus) :
    a ∈ sortByLineNumber l ↔ a ∈ l := by
  have key : ∀ (l acc : List LineVerificationStatus),
      a ∈ l.foldl (fun acc x => insertByLine x acc) acc ↔ a ∈ acc ∨ a ∈ l := by
    intro l
    induction l with
    | nil => simp
    | cons x xs ih =>
        intro acc
        rw [List.foldl_cons, ih, mem_insertByLine]
        simp only [List.mem_cons]
        tauto
  rw [sortByLineNumber, key]
  simp

theorem getResults_ok {t : GateTracker} {sid : String}
    {rs : List GateVerificationResult} (h : mapGet t.results sid = some rs) :
    t.getResults sid = .ok rs := by
  simp only [GateTracker.getResults, h]

theorem getGateStats_ok {t : GateTracker} {sid : String}
    {rs : List GateVerificationResult} (h : mapGet t.results sid = some rs)
    (g : Gate) : t.getGateStats sid g = .ok (gateStatsOf rs g) := by
  simp only [GateTracker.getGateStats, getResults_ok h]

theorem foldl_mul_poe (pg : PerGateStats) (f : Gate → GateStats)
    (hf : ∀ g, pg.get g = f g) :
    ∀ (l : List Gate) (init : ℚ),
      l.foldl (fun product gate => product * (1 - (pg.get gate).poe)) init
        = init * (l.map (fun g => 1 - (f g).poe)).prod := by
  intro l
  induction l with
  | nil =>
      intro init
      simp
  | cons g gs ih =>
      intro init
      rw [List.foldl_cons, ih, hf g, List.map_cons, List.prod_cons]
      ring

theorem countP_lineVerificationMap (t : GateTracker)
    (rs : List GateVerificationResult) :
    ((lineVerificationMapOf rs).map Prod.snd).countP (fun s => t.isLineVerified s)
      = specVerifiedLines t.config rs := by
  obtain ⟨hnd, hmem, hval⟩ := statusMapOk_lineVerificationMapOf rs
  rw [List.countP_map]
  rw [List.countP_congr (q := fun p => specVerifiedB t.config (flattenObs rs) p.1)
    (fun p hp => by
      simp only [Function.comp_apply]
      rw [hval p hp, isLineVerified_mkStatus])]
  have hcnt : (lineVerificationMapOf rs).countP
        (fun p => specVerifiedB t.config (flattenObs rs) p.1)
      = ((lineVerificationMapOf rs).map Prod.fst).countP
        (specVerifiedB t.config (flattenObs rs)) := by
    rw [List.countP_map]
    rfl
  rw [hcnt]
  have hperm : ((lineVerificationMapOf rs).map Prod.fst).Perm
      (((flattenObs rs).map obsKey).dedup) := by
    rw [List.perm_ext_iff_of_nodup hnd (List.nodup_dedup _)]
    intro k
    rw [List.mem_dedup, hmem k, touched, List.any_eq_true]
    constructor
    · rintro ⟨o, ho, hk⟩
      rw [List.mem_map]
      exact ⟨o, ho, by simpa using hk⟩
    · intro hk
      rcases List.mem_map.mp hk with ⟨o, ho, rfl⟩
      exact ⟨o, ho, by simp⟩
  rw [hperm.countP_eq, specVerifiedLines, ← List.countP_eq_length_filter]

theorem getSessionStats_spec (t : GateTracker) (sid : String)
    (rs : List GateVerificationResult) (h : mapGet t.results sid = some rs) :
    ∃ stats, t.getSessionStats sid = .ok stats ∧
      stats.verifiedLines = specVerifiedLines t.config rs ∧
      stats.totalLinesChecked = (lineVerificationMapOf rs).length ∧
      (∀ g, stats.perGate.get g = gateStatsOf rs g) ∧
      stats.overallPoE = specOverallPoE t.config rs := by
  simp only [GateTracker.getSessionStats, getResults_ok h, getGateStats_ok h,
    GateTracker.buildLineVerificationMap, h, Option.getD_some, ALL_GATES,
    List.foldl_cons, List.foldl_nil, PerGateStats.set]
  refine ⟨_, rfl, countP_lineVerificationMap t rs, rfl, ?_, ?_⟩
  · intro g
    cases g <;> rfl
  · have happ : (([Gate.G1_COMPILE, Gate.G2_CORRECT, Gate.G3_REACHABLE] : List Gate).filter
        (fun g => !(t.config.get g).skip && (t.config.get g).required))
        = specApplicableGates t.config := by
      rw [specApplicableGates, ALL_GATES]
      apply List.filter_congr
      intro g _
      rw [Bool.and_comm]
    rw [happ, specOverallPoE]
    have hget : ∀ g : Gate,
        (({ G1_COMPILE := gateStatsOf rs .G1_COMPILE
            G2_CORRECT := gateStatsOf rs .G2_CORRECT
            G3_REACHABLE := gateStatsOf rs .G3_REACHABLE } : PerGateStats).get g)
          = gateStatsOf rs g := by
      intro g
      cases g <;> rfl
    by_cases hnil : specApplicableGates t.config = []
    · rw [hnil]
      simp
    · rw [if_neg (by simpa [List.length_eq_zero] using hnil), if_neg hnil,
        foldl_mul_poe _ _ hget, one_mul]

/-! ## Line-classifier counting -/

theorem countStep_sum (style : CommentStyle) :
    ∀ (lines : List (List Char)) (st : CountState),
      (lines.foldl (countStep style) st).code
          + (lines.foldl (countStep style) st).comments
          + (lines.foldl (countStep style) st).blank
        = st.code + st.comments + st.blank + lines.length := by
  intro lines
  induction lines with
  | nil =>
      intro st
      simp
  | cons line rest ih =>
      intro st
      rw [List.foldl_cons, ih]
      rcases hcs : classifyLine style st.inBlockComment line with ⟨cat, inB⟩
      cases cat <;> simp [countStep, hcs] <;> omega

/-- C5: for every content and language, `countLines` returns counts with
`total = code + comments + blank` exactly, `total` equal to the number of
LF/CRLF-delimited segments of the content, and the empty content classified
as exactly one blank line. -/
theorem countLines_total_invariant (content : List Char) (language : Language) :
    (countLines content language).total
        = (countLines content language).code
            + (countLines content language).comments
            + (countLines content language).blank ∧
    (countLines content language).total = (jsSplitLines content).length ∧
    countLines [] language = { total := 1, code := 0, comments := 0, blank := 1 } := by
  refine ⟨?_, rfl, rfl⟩
  simp only [countLines]
  rw [countStep_sum]
  simp

/-! ## Recording with an empty line-results list (C10) -/

/-- C10: recording a recognized gate kind with an empty `lineResults` list for
a fresh session succeeds and makes the session known — `getResults`,
`getGateStats` and `getSessionStats` no longer fail with `SESSION_NOT_FOUND`,
and `getGateStats` reports `linesChecked = 0`, `linesPassed = 0`,
`passRate = 1`, `poe = 0` for every gate. -/
theorem record_empty_lineResults (t : GateTracker) (sid : String)
    (input : GateVerificationInput) (hfresh : mapGet t.results sid = none)
    (hempty : input.lineResults = []) :
    (t.record sid input).1.isOk = true ∧
    ((t.record sid input).2.getResults sid).isOk = true ∧
    (∀ g, (t.record sid input).2.getGateStats sid g
        = .ok { linesChecked := 0, linesPassed := 0, passRate := 1, poe := 0 }) ∧
    ((t.record sid input).2.getSessionStats sid).isOk = true := by
  have hg : ALL_GATES.contains input.gate = true := by
    cases input.gate <;> rfl
  set fullR : GateVerificationResult :=
    { sessionId := sid, timestamp := input.timestamp, gate := input.gate
      filePath := input.filePath, lineResults := input.lineResults } with hfull
  have hrec : t.record sid input
      = (.ok fullR, { t with results := t.results ++ [(sid, [fullR])] }) := by
    simp only [GateTracker.record, hg, if_true, hfresh]
  have hres : mapGet
      ({ t with results := t.results ++ [(sid, [fullR])] } : GateTracker).results sid
      = some [fullR] := by
    show mapGet (t.results ++ [(sid, [fullR])]) sid = some [fullR]
    rw [mapGet_append_of_none hfresh, mapGet_cons, if_pos rfl]
  have hmap : ∀ g, gateLineMap [fullR] g = [] := by
    intro g
    rw [gateLineMap_eq]
    by_cases hgg : input.gate = g
    · rw [List.filter_cons_of_pos
        (by simp only [decide_eq_true_eq]; exact hgg), List.filter_nil]
      simp [flattenObs, hempty]
    · rw [List.filter_cons_of_neg
        (by simp only [decide_eq_true_eq]; exact hgg), List.filter_nil]
      rfl
  have hstats : ∀ g, gateStatsOf [fullR] g
      = { linesChecked := 0, linesPassed := 0, passRate := 1, poe := 0 } := by
    intro g
    simp [gateStatsOf, hmap g]
  refine ⟨?_, ?_, ?_, ?_⟩
  · rw [hrec]
    rfl
  · rw [hrec, getResults_ok hres]
    rfl
  · intro g
    rw [hrec, getGateStats_ok hres g, hstats g]
  · rw [hrec]
    obtain ⟨stats, hok, -⟩ := getSessionStats_spec _ sid _ hres
    rw [hok]
    rfl

/-! ## Policy updates (C9) -/

theorem mergeGateConfig_fields (old : GateConfig) (pc : Option PartialGateConfig) :
    mergeGateConfig old pc =
      { required := (pc.bind PartialGateConfig.required).getD old.required
        threshold := (pc.bind PartialGateConfig.threshold).getD old.threshold
        skip := (pc.bind PartialGateConfig.skip).getD old.skip } := by
  cases pc <;> rfl

/-- C9: `setConfig` rejects with `INVALID_THRESHOLD`, leaving the stored
policy entirely unchanged, whenever any supplied gate's threshold lies
outside `[0, 1]`; when all supplied thresholds are in range it succeeds and
merges the supplied fields gate by gate into the existing policy, leaving
unsupplied gates and fields untouched. -/
theorem setConfig_validation_and_merge (t : GateTracker)
    (config : PartialGateConfiguration) :
    ((∃ g ∈ ALL_GATES, ∃ th : ℚ,
        (config.get g).bind PartialGateConfig.threshold = some th ∧
          (th < 0 ∨ 1 < th)) →
      t.setConfig config =
        (.err { code := .INVALID_THRESHOLD
                message := "Invalid threshold. Must be between 0 and 1." }, t)) ∧
    ((∀ g ∈ ALL_GATES, ∀ th : ℚ,
        (config.get g).bind PartialGateConfig.threshold = some th →
          0 ≤ th ∧ th ≤ 1) →
      ((t.setConfig config).2.results = t.results ∧
       (t.setConfig config).1 = .ok (t.setConfig config).2.config ∧
       ∀ g, (t.setConfig config).2.config.get g =
        { required := ((config.get g).bind PartialGateConfig.required).getD
            ((t.config.get g).required)
          threshold := ((config.get g).bind PartialGateConfig.threshold).getD
            ((t.config.get g).threshold)
          skip := ((config.get g).bind PartialGateConfig.skip).getD
            ((t.config.get g).skip) })) := by
  constructor
  · rintro ⟨g, hgmem, th, hth, hbad⟩
    have hbadP : (fun gate =>
        match (config.get gate).bind PartialGateConfig.threshold with
        | some th => decide (th < 0) || decide (1 < th)
        | none => false) g = true := by
      simp only [hth]
      rcases hbad with hb | hb
      · simp [hb]
      · simp [hb]
    have hsome : (ALL_GATES.find? (fun gate =>
        match (config.get gate).bind PartialGateConfig.threshold with
        | some th => decide (th < 0) || decide (1 < th)
        | none => false)).isSome = true := by
      rw [List.find?_isSome]
      exact ⟨g, hgmem, hbadP⟩
    rcases hx : ALL_GATES.find? (fun gate =>
        match (config.get gate).bind PartialGateConfig.threshold with
        | some th => decide (th < 0) || decide (1 < th)
        | none => false) with _ | x
    · rw [hx] at hsome
      simp at hsome
    · simp only [GateTracker.setConfig, hx]
  · intro hvalid
    have hnone : ALL_GATES.find? (fun gate =>
        match (config.get gate).bind PartialGateConfig.threshold with
        | some th => decide (th < 0) || decide (1 < th)
        | none => false) = none := by
      rw [List.find?_eq_none]
      intro g hgmem
      rcases hsup : (config.get g).bind PartialGateConfig.threshold with _ | th
      · simp
      · have hrange := hvalid g hgmem th hsup
        simp [not_lt.mpr hrange.1, not_lt.mpr hrange.2]
    refine ⟨?_, ?_, ?_⟩
    · simp only [GateTracker.setConfig, hnone]
    · simp only [GateTracker.setConfig, hnone]
    · intro g
      simp only [GateTracker.setConfig, hnone]
      cases g <;> exact mergeGateConfig_fields _ _

/-! ## Line verification verdicts (C1) -/

/-- C1: for a session with recorded observations, a line is reported verified
— by `getLineVerification`'s `verified` flag, and in `getSessionStats`'s
`verifiedLines` count — exactly when (1) at least one gate recorded an
observation for that `(file, line)` and (2) every gate that is required and
not skipped under the current policy and that checked the line has a passing
AND-reduction of its observations (the criterion `specVerifiedB`;
`specVerifiedLines` counts the distinct observed lines satisfying it). -/
theorem line_verified_iff_criterion (t : GateTracker) (sid : String)
    (rs : List GateVerificationResult) (h : mapGet t.results sid = some rs) :
    (∀ (fp : String) (lst : List LineVerificationStatus),
        t.getLineVerification sid fp = .ok lst →
        ∀ status ∈ lst,
          status.verified = specVerifiedB t.config (flattenObs rs)
            (status.location.filePath, status.location.lineNumber)) ∧
    (∀ stats : SessionGateStats, t.getSessionStats sid = .ok stats →
        stats.verifiedLines = specVerifiedLines t.config rs) := by
  obtain ⟨hnd, hmem, hval⟩ := statusMapOk_lineVerificationMapOf rs
  constructor
  · intro fp lst hlst status hstatus
    simp only [GateTracker.getLineVerification, getResults_ok h,
      GateTracker.buildLineVerificationMap, h, Option.getD_some,
      Result.ok.injEq] at hlst
    subst hlst
    rw [mem_sortByLineNumber] at hstatus
    rcases List.mem_map.mp hstatus with ⟨p, hpf, rfl⟩
    have hpm : p ∈ lineVerificationMapOf rs := List.mem_of_mem_filter hpf
    have hp2 : p.2 = mkStatus (flattenObs rs) p.1 := hval p hpm
    have hloc : ((({ p.2 with verified := t.isLineVerified p.2 } :
          LineVerificationStatus)).location.filePath,
        (({ p.2 with verified := t.isLineVerified p.2 } :
          LineVerificationStatus)).location.lineNumber) = p.1 := by
      rw [hp2]
      rfl
    show t.isLineVerified p.2 = _
    rw [hloc, hp2]
    exact isLineVerified_mkStatus t (flattenObs rs) p.1
  · intro stats hstats
    obtain ⟨stats', hok, hvl, -⟩ := getSessionStats_spec t sid rs h
    rw [hok, Result.ok.injEq] at hstats
    rw [← hstats]
    exact hvl

/-! ## Session PoE composition (C2) -/

/-- C2: for a session with recorded observations, `getSessionStats` returns
`overallPoE = 1 - Π(1 - poe_g)` over exactly the gates whose current policy
has `required = true` and `skip = false`, where `poe_g` is that gate's
`gateStats` PoE, and `0` when no gate is both required and unskipped. -/
theorem overallPoE_composition (t : GateTracker) (sid : String)
    (rs : List GateVerificationResult) (h : mapGet t.results sid = some rs) :
    ∃ stats, t.getSessionStats sid = .ok stats ∧
      stats.overallPoE = specOverallPoE t.config rs ∧
      (specApplicableGates t.config = [] → stats.overallPoE = 0) := by
  obtain ⟨stats, hok, -, -, -, hpoe⟩ := getSessionStats_spec t sid rs h
  refine ⟨stats, hok, hpoe, ?_⟩
  intro hnil
  rw [hpoe, specOverallPoE, if_pos hnil]

/-! ## Threshold noninterference (C8) -/

/-- C8: two trackers with identical observation logs whose policies agree on
`required` and `skip` and differ only in threshold values (all within
`[0, 1]`) produce identical verdict-producing reads: equal `getSessionStats`
results (in particular `verifiedLines` and `overallPoE`) and equal
`getLineVerification` results (in particular every `verified` flag). -/
theorem threshold_noninterference (t₁ t₂ : GateTracker) (sid fp : String)
    (hres : t₁.results = t₂.results)
    (hreq : ∀ g, (t₁.config.get g).required = (t₂.config.get g).required)
    (hskip : ∀ g, (t₁.config.get g).skip = (t₂.config.get g).skip)
    (_hth₁ : ∀ g, 0 ≤ (t₁.config.get g).threshold ∧ (t₁.config.get g).threshold ≤ 1)
    (_hth₂ : ∀ g, 0 ≤ (t₂.config.get g).threshold ∧ (t₂.config.get g).threshold ≤ 1) :
    t₁.getSessionStats sid = t₂.getSessionStats sid ∧
    t₁.getLineVerification sid fp = t₂.getLineVerification sid fp := by
  have hr1 : t₁.config.G1_COMPILE.required = t₂.config.G1_COMPILE.required :=
    hreq .G1_COMPILE
  have hr2 : t₁.config.G2_CORRECT.required = t₂.config.G2_CORRECT.required :=
    hreq .G2_CORRECT
  have hr3 : t₁.config.G3_REACHABLE.required = t₂.config.G3_REACHABLE.required :=
    hreq .G3_REACHABLE
  have hs1 : t₁.config.G1_COMPILE.skip = t₂.config.G1_COMPILE.skip :=
    hskip .G1_COMPILE
  have hs2 : t₁.config.G2_CORRECT.skip = t₂.config.G2_CORRECT.skip :=
    hskip .G2_CORRECT
  have hs3 : t₁.config.G3_REACHABLE.skip = t₂.config.G3_REACHABLE.skip :=
    hskip .G3_REACHABLE
  have hverif : ∀ s, t₁.isLineVerified s = t₂.isLineVerified s := by
    intro s
    simp only [GateTracker.isLineVerified]
    rw [hr1, hr2, hr3, hs1, hs2, hs3]
  rcases hc : mapGet t₂.results sid with _ | rs
  · have hc₁ : mapGet t₁.results sid = none := by
      rw [hres]
      exact hc
    constructor
    · simp only [GateTracker.getSessionStats, GateTracker.getResults, hc₁, hc]
    · simp only [GateTracker.getLineVerification, GateTracker.getResults, hc₁, hc]
  · have hc₁ : mapGet t₁.results sid = some rs := by
      rw [hres]
      exact hc
    have happ : (ALL_GATES.filter fun g =>
          !(t₁.config.get g).skip && (t₁.config.get g).required)
        = (ALL_GATES.filter fun g =>
          !(t₂.config.get g).skip && (t₂.config.get g).required) := by
      apply List.filter_congr
      intro g _
      rw [hreq g, hskip g]
    constructor
    · simp only [GateTracker.getSessionStats, getResults_ok hc₁, getResults_ok hc,
        getGateStats_ok hc₁, getGateStats_ok hc,
        GateTracker.buildLineVerificationMap, hc₁, hc, Option.getD_some, happ,
        Result.ok.injEq, SessionGateStats.mk.injEq]
      exact ⟨trivial, trivial,
        List.countP_congr (fun s _ => by rw [hverif s]), trivial⟩
    · simp only [GateTracker.getLineVerification, getResults_ok hc₁,
        getResults_ok hc, GateTracker.buildLineVerificationMap, hc₁, hc,
        Option.getD_some, Result.ok.injEq]
      congr 1
      apply List.map_congr_left
      intro p _
      rw [hverif p.2]

/-! ## Failing G2 observations and live skip evaluation (C3) -/

/-- C3 (amended): for a session in which a line's G1 and G3 observations all
pass but its G2 observations AND-reduce to a failure: while the current
policy keeps G2 required and not skipped the line is never verified; once
G2's `skip` flag is `true` in the current policy — even when set only after
the failing observation was recorded, since verdicts are recomputed live from
the current policy — the line is reported verified. -/
theorem failing_g2_live_skip (t : GateTracker) (sid : String)
    (rs : List GateVerificationResult) (h : mapGet t.results sid = some rs)
    (fp : String) (ln : Nat)
    (hg1 : andAll (gateObs (flattenObs rs) .G1_COMPILE (fp, ln)) = true)
    (hg3 : andAll (gateObs (flattenObs rs) .G3_REACHABLE (fp, ln)) = true)
    (hfail : andAll (gateObs (flattenObs rs) .G2_CORRECT (fp, ln)) = false) :
    ∀ status, mapGet (t.buildLineVerificationMap sid) (fp, ln) = some status →
      ((t.config.G2_CORRECT.required = true → t.config.G2_CORRECT.skip = false →
          t.isLineVerified status = false) ∧
       (t.config.G2_CORRECT.skip = true → t.isLineVerified status = true)) := by
  intro status hstatus
  obtain ⟨hnd, hmem, hval⟩ := statusMapOk_lineVerificationMapOf rs
  rw [GateTracker.buildLineVerificationMap, h, Option.getD_some] at hstatus
  have hmemp : ((fp, ln), status) ∈ lineVerificationMapOf rs :=
    mem_of_mapGet hstatus
  have hst : status = mkStatus (flattenObs rs) (fp, ln) := hval _ hmemp
  subst hst
  have hl2 : gateObs (flattenObs rs) .G2_CORRECT (fp, ln) ≠ [] := by
    intro hnil
    rw [hnil] at hfail
    simp [andAll] at hfail
  have hopt2 : optAnd (gateObs (flattenObs rs) .G2_CORRECT (fp, ln)) = some false := by
    rw [optAnd, if_neg hl2, hfail]
  constructor
  · intro hreq hskip
    simp only [GateTracker.isLineVerified, mkStatus, hopt2, hreq, hskip]
    simp
  · intro hskip
    have h1 : optAnd (gateObs (flattenObs rs) .G1_COMPILE (fp, ln)) ≠ some false := by
      rcases hl1 : gateObs (flattenObs rs) .G1_COMPILE (fp, ln) with _ | ⟨b, l⟩
      · simp [optAnd]
      · rw [optAnd, if_neg (List.cons_ne_nil _ _)]
        rw [hl1] at hg1
        rw [hg1]
        simp
    have h3 : optAnd (gateObs (flattenObs rs) .G3_REACHABLE (fp, ln)) ≠ some false := by
      rcases hl3 : gateObs (flattenObs rs) .G3_REACHABLE (fp, ln) with _ | ⟨b, l⟩
      · simp [optAnd]
      · rw [optAnd, if_neg (List.cons_ne_nil _ _)]
        rw [hl3] at hg3
        rw [hg3]
        simp
    have hb1 : (optAnd (gateObs (flattenObs rs) .G1_COMPILE (fp, ln))
        == some false) = false := beq_eq_false_iff_ne.mpr h1
    have hb3 : (optAnd (gateObs (flattenObs rs) .G3_REACHABLE (fp, ln))
        == some false) = false := beq_eq_false_iff_ne.mpr h3
    simp only [GateTracker.isLineVerified, mkStatus, hopt2, hskip, hb1, hb3]
    simp

/-! ## Gate statistics: AND merge and permutation invariance (C4) -/

theorem andAll_perm {l₁ l₂ : List Bool} (h : l₁.Perm l₂) :
    andAll l₁ = andAll l₂ := by
  cases hall : andAll l₂
  · rw [andAll, List.all_eq_false] at hall ⊢
    obtain ⟨x, hx, hpx⟩ := hall
    exact ⟨x, h.mem_iff.mpr hx, hpx⟩
  · rw [andAll, List.all_eq_true] at hall ⊢
    intro x hx
    exact hall x (h.mem_iff.mp hx)

theorem gateStatsOf_eq_of_perm (rs rs' : List GateVerificationResult) (g : Gate)
    (hp : rs.Perm rs') : gateStatsOf rs g = gateStatsOf rs' g := by
  have hflat : (flattenObs rs).Perm (flattenObs rs') := hp.flatMap_right _
  have hobs : ∀ k, (gateObs (flattenObs rs) g k).Perm
      (gateObs (flattenObs rs') g k) := by
    intro k
    exact (hflat.filter _).map _
  obtain ⟨hnd₁, hmem₁, hval₁⟩ := gateLineMap_char rs g
  obtain ⟨hnd₂, hmem₂, hval₂⟩ := gateLineMap_char rs' g
  have hne : ∀ k, (gateObs (flattenObs rs) g k ≠ [] ↔
      gateObs (flattenObs rs') g k ≠ []) := by
    intro k
    have hlen := (hobs k).length_eq
    constructor
    · intro hn hnil
      rw [hnil, List.length_nil] at hlen
      exact hn (List.length_eq_zero.mp hlen)
    · intro hn hnil
      rw [hnil, List.length_nil] at hlen
      exact hn (List.length_eq_zero.mp hlen.symm)
  have hkeys : ((gateLineMap rs g).map Prod.fst).Perm
      ((gateLineMap rs' g).map Prod.fst) := by
    rw [List.perm_ext_iff_of_nodup hnd₁ hnd₂]
    intro k
    rw [hmem₁ k, hmem₂ k]
    exact hne k
  have hchk : (gateLineMap rs g).length = (gateLineMap rs' g).length := by
    have h1 := hkeys.length_eq
    rwa [List.length_map, List.length_map] at h1
  have hpass : ((gateLineMap rs g).map Prod.snd).countP (fun passed => passed)
      = ((gateLineMap rs' g).map Prod.snd).countP (fun passed => passed) := by
    rw [List.countP_map, List.countP_map]
    rw [List.countP_congr (l := gateLineMap rs g)
        (q := fun p => andAll (gateObs (flattenObs rs) g p.1))
        (fun p hp' => by
          simp only [Function.comp_apply]
          rw [hval₁ p hp'])]
    rw [List.countP_congr (l := gateLineMap rs' g)
        (q := fun p => andAll (gateObs (flattenObs rs') g p.1))
        (fun p hp' => by
          simp only [Function.comp_apply]
          rw [hval₂ p hp'])]
    have e1 : (gateLineMap rs g).countP
          (fun p => andAll (gateObs (flattenObs rs) g p.1))
        = ((gateLineMap rs g).map Prod.fst).countP
          (fun k => andAll (gateObs (flattenObs rs) g k)) := by
      rw [List.countP_map]
      rfl
    have e2 : (gateLineMap rs' g).countP
          (fun p => andAll (gateObs (flattenObs rs') g p.1))
        = ((gateLineMap rs' g).map Prod.fst).countP
          (fun k => andAll (gateObs (flattenObs rs') g k)) := by
      rw [List.countP_map]
      rfl
    rw [e1, e2]
    rw [List.countP_congr (fun k _ => by rw [andAll_perm (hobs k)])]
    exact hkeys.countP_eq _
  simp only [gateStatsOf]
  rw [hchk, hpass]

/-- C4: the per-line pass verdict `getGateStats` uses for a `(file, line)` key
is the logical AND of the `passed` values of every observation recorded for
that key under that gate, and the whole `gateStats` output is invariant under
any permutation of the session's recorded observation list. -/
theorem gateStats_AND_and_permutation_invariance
    (rs rs' : List GateVerificationResult) (g : Gate) :
    (∀ p ∈ gateLineMap rs g, p.2 = andAll (gateObs (flattenObs rs) g p.1)) ∧
    (∀ (t : GateTracker) (sid : String), mapGet t.results sid = some rs →
        t.getGateStats sid g = .ok (gateStatsOf rs g)) ∧
    (rs.Perm rs' → gateStatsOf rs g = gateStatsOf rs' g) :=
  ⟨(gateLineMap_char rs g).2.2, fun _ _ h => getGateStats_ok h g,
    gateStatsOf_eq_of_perm rs rs' g⟩

/-! ## Metrics calculator: error conditions and Synth (C6) -/

theorem getSession_some {c : EventCollector} {sid : String} {s : Session}
    (h : mapGet c.sessions sid = some s) : c.getSession sid = .ok s := by
  simp only [EventCollector.getSession, h]

theorem getSession_none {c : EventCollector} {sid : String}
    (h : mapGet c.sessions sid = none) :
    c.getSession sid = .err { code := .SESSION_NOT_FOUND
                              message := "Session not found: " ++ sid } := by
  simp only [EventCollector.getSession, h]

theorem getMetrics_some {c : EventCollector} {sid : String} {s : Session}
    (h : mapGet c.sessions sid = some s) :
    c.getMetrics sid = .ok (EventCollector.calculateMetrics s) := by
  simp only [EventCollector.getMetrics, getSession_some h]

theorem getMetrics_none {c : EventCollector} {sid : String}
    (h : mapGet c.sessions sid = none) :
    c.getMetrics sid = .err { code := .SESSION_NOT_FOUND
                              message := "Session not found: " ++ sid } := by
  simp only [EventCollector.getMetrics, getSession_none h]

theorem calculateMetrics_totalTokens (session : Session) :
    (EventCollector.calculateMetrics session).totalTokensIn
      + (EventCollector.calculateMetrics session).totalTokensOut
      = specTotalTokens session := by
  have key : ∀ (events : List MeterEvent) (m : SessionMetrics),
      (events.foldl EventCollector.metricsStep m).totalTokensIn
        + (events.foldl EventCollector.metricsStep m).totalTokensOut
        = m.totalTokensIn + m.totalTokensOut
          + (events.map (fun e =>
              match e with
              | .tokens_in _ _ count => count
              | .tokens_out _ _ count => count
              | _ => 0)).sum := by
    intro events
    induction events with
    | nil =>
        intro m
        simp
    | cons e es ih =>
        intro m
        rw [List.foldl_cons, ih, List.map_cons, List.sum_cons]
        cases e <;> simp [EventCollector.metricsStep] <;> omega
  rw [EventCollector.calculateMetrics, specTotalTokens, key]
  simp

/-- C6: for a session known to the event collector, `calculate` fails with
`NO_LOC_DATA` exactly when the snapshot's total is `0`, and otherwise
succeeds with `totalTokens` the sum of all recorded tokens-in/tokens-out
counts and `tokensPerLOC = totalTokens / totalLOC`;
`recordSynthMeasurement` fails under exactly the same two error conditions —
`SESSION_NOT_FOUND` for an unknown session, `NO_LOC_DATA` for a zero-total
snapshot. -/
theorem metrics_error_conditions
    (collector : EventCollector) (gateTracker : GateTracker) (sid : String)
    (snapshot : CodebaseSnapshot) (now : ℚ) (mc : MetricsCalculatorState)
    (storyId nowIso : String) :
    (∀ session, mapGet collector.sessions sid = some session →
      ((snapshot.totals.total = 0 →
          MetricsCalculator.calculate collector gateTracker sid snapshot now
            = .err { code := .NO_LOC_DATA
                     message := "No lines of code in codebase snapshot" }) ∧
       (snapshot.totals.total ≠ 0 →
          ∃ m, MetricsCalculator.calculate collector gateTracker sid snapshot now
              = .ok m ∧
            m.totalTokens = specTotalTokens session ∧
            m.tokensPerLOC
              = (specTotalTokens session : ℚ) / (snapshot.totals.total : ℚ)))) ∧
    ((MetricsCalculator.recordSynthMeasurement collector mc sid storyId snapshot
        nowIso).1.isErr = true
      ↔ (mapGet collector.sessions sid = none ∨ snapshot.totals.total = 0)) ∧
    (mapGet collector.sessions sid = none →
      (MetricsCalculator.recordSynthMeasurement collector mc sid storyId snapshot
        nowIso).1 = .err { code := .SESSION_NOT_FOUND
                           message := "Session not found: " ++ sid }) ∧
    (∀ session, mapGet collector.sessions sid = some session →
      snapshot.totals.total = 0 →
      (MetricsCalculator.recordSynthMeasurement collector mc sid storyId snapshot
        nowIso).1 = .err { code := .NO_LOC_DATA
                           message := "No lines of code in codebase snapshot" }) := by
  rcases hm : mapGet collector.sessions sid with _ | session
  · refine ⟨?_, ?_, ?_, ?_⟩
    · intro s hs
      exact Option.noConfusion hs
    · simp only [MetricsCalculator.recordSynthMeasurement, getMetrics_none hm]
      simp [Result.isErr]
    · intro _
      simp only [MetricsCalculator.recordSynthMeasurement, getMetrics_none hm]
    · intro s hs
      exact Option.noConfusion hs
  · refine ⟨?_, ?_, ?_, ?_⟩
    · intro s hs
      injection hs with hs
      subst hs
      simp only [MetricsCalculator.calculate, getSession_some hm,
        getMetrics_some hm]
      constructor
      · intro h0
        rw [if_pos h0]
      · intro hne
        rw [if_neg hne]
        refine ⟨_, rfl, ?_, ?_⟩
        · exact calculateMetrics_totalTokens _
        · rw [calculateMetrics_totalTokens]
          simp [Nat.pos_of_ne_zero hne]
    · simp only [MetricsCalculator.recordSynthMeasurement, getMetrics_some hm]
      by_cases h0 : snapshot.totals.total = 0
      · rw [if_pos h0]
        simp [Result.isErr, h0]
      · rw [if_neg h0]
        by_cases hex : ((mapGet mc.synthTrends sid).getD []).length > 0
        · rw [if_pos hex]
          simp [Result.isErr, h0]
        · rw [if_neg hex]
          simp [Result.isErr, h0]
    · intro hnone
      exact Option.noConfusion hnone
    · intro s hs h0
      injection hs with hs
      subst hs
      simp only [MetricsCalculator.recordSynthMeasurement, getMetrics_some hm]
      rw [if_pos h0]

/-! ## Synth trend telescoping (C7) -/

theorem trendDeltasOk_append :
    ∀ (prev : ℚ) (l : List SynthTrendPoint) (p : SynthTrendPoint),
      trendDeltasOk prev l →
      p.synthDelta
        = p.synth - (((l.getLast?).map SynthTrendPoint.synth).getD prev) →
      trendDeltasOk prev (l ++ [p])
  | _, [], p, _, hd => ⟨by simpa using hd, trivial⟩
  | prev, q :: rest, p, hok, hd => by
      obtain ⟨hq, hrest⟩ := hok
      refine ⟨hq, trendDeltasOk_append q.synth rest p hrest ?_⟩
      cases rest with
      | nil => simpa using hd
      | cons r rest' => simpa [List.getLast?_cons_cons] using hd

theorem trendDeltasOk_append' (l : List SynthTrendPoint) (p : SynthTrendPoint)
    (h : trendDeltasOk 0 l)
    (hd : p.synthDelta = p.synth -
      (if l.length > 0
       then ((l.getLast?).map SynthTrendPoint.synth).getD 0 else 0)) :
    trendDeltasOk 0 (l ++ [p]) := by
  apply trendDeltasOk_append 0 l p h
  by_cases hl : l.length > 0
  · rw [hd, if_pos hl]
  · rw [hd, if_neg hl]
    have hnil : l = [] := by
      cases l
      · rfl
      · simp at hl
    rw [hnil]
    rfl

theorem getSynthTrend_record (collector : EventCollector)
    (mc : MetricsCalculatorState) (sid storyId : String)
    (snapshot : CodebaseSnapshot) (nowIso : String) (s : String)
    (h : trendDeltasOk 0 (MetricsCalculator.getSynthTrend mc s)) :
    trendDeltasOk 0 (MetricsCalculator.getSynthTrend
      (MetricsCalculator.recordSynthMeasurement collector mc sid storyId
        snapshot nowIso).2 s) := by
  rcases hm : collector.getMetrics sid with sm | e
  case err =>
    simp only [MetricsCalculator.recordSynthMeasurement, hm]
    exact h
  case ok =>
    simp only [MetricsCalculator.recordSynthMeasurement, hm]
    by_cases h0 : snapshot.totals.total = 0
    · rw [if_pos h0]
      exact h
    · rw [if_neg h0]
      by_cases hex : ((mapGet mc.synthTrends sid).getD []).length > 0
      · rw [if_pos hex]
        by_cases hs : s = sid
        · subst hs
          simp only [MetricsCalculator.getSynthTrend, mapGet_mapSet_self,
            Option.getD_some]
          exact trendDeltasOk_append' _ _ h rfl
        · simp only [MetricsCalculator.getSynthTrend,
            mapGet_mapSet_ne _ _ _ _ hs]
          exact h
      · rw [if_neg hex]
        by_cases hs : s = sid
        · subst hs
          simp only [MetricsCalculator.getSynthTrend, mapGet_mapSet_self,
            Option.getD_some]
          have hnil : (mapGet mc.synthTrends s).getD [] = [] := by
            cases hE : (mapGet mc.synthTrends s).getD []
            · rfl
            · rw [hE] at hex
              simp at hex
          simp only [hnil]
          refine ⟨?_, trivial⟩
          simp
        · simp only [MetricsCalculator.getSynthTrend,
            mapGet_mapSet_ne _ _ _ _ hs]
          exact h

theorem trendDeltasOk_runSynthCalls (sid : String) (calls : List SynthCall)
    (s : String) :
    trendDeltasOk 0 (MetricsCalculator.getSynthTrend
      (runSynthCalls sid { synthTrends := [] } calls) s) := by
  have key : ∀ (calls : List SynthCall) (mc : MetricsCalculatorState),
      (∀ s', trendDeltasOk 0 (MetricsCalculator.getSynthTrend mc s')) →
      ∀ s', trendDeltasOk 0 (MetricsCalculator.getSynthTrend
        (runSynthCalls sid mc calls) s') := by
    intro calls
    induction calls with
    | nil =>
        intro mc h s'
        exact h s'
    | cons c cs ih =>
        intro mc h s'
        rw [runSynthCalls, List.foldl_cons]
        exact ih _ (fun s'' => getSynthTrend_record _ _ _ _ _ _ _ (h s'')) s'
  apply key calls _ _ s
  intro s'
  simp only [MetricsCalculator.getSynthTrend, mapGet_nil, Option.getD_none]
  trivial

theorem deltas_sum_aux :
    ∀ (rest : List SynthTrendPoint) (p : SynthTrendPoint),
      trendDeltasOk p.synth rest →
      (rest.map SynthTrendPoint.synthDelta).sum
        = (((rest.getLast?).map SynthTrendPoint.synth).getD p.synth) - p.synth
  | [], p, _ => by simp
  | q :: rest', p, hok => by
      obtain ⟨hq, hrest⟩ := hok
      rw [List.map_cons, List.sum_cons, deltas_sum_aux rest' q hrest, hq]
      cases rest' with
      | nil => simp
      | cons r rest'' =>
          rw [List.getLast?_cons_cons]
          have hlast : ((r :: rest'').getLast?)
              = some ((r :: rest'').getLast (List.cons_ne_nil r rest'')) :=
            List.getLast?_eq_getLast _ _
          rw [hlast]
          simp only [Option.map_some', Option.getD_some]
          ring

/-- C7: for every session and every sequence of `recordSynthMeasurement`
calls starting from a fresh calculator, the first trend point's delta is its
raw synth value (`synth - 0`) and the deltas telescope: the sum of the
consecutive deltas of the second through last points equals the last point's
synth minus the first point's synth. -/
theorem synth_trend_telescopes (sid : String) (calls : List SynthCall)
    (trend : List SynthTrendPoint)
    (htrend : trend = MetricsCalculator.getSynthTrend
      (runSynthCalls sid { synthTrends := [] } calls) sid)
    (hne : trend ≠ []) :
    (trend.head hne).synthDelta = (trend.head hne).synth ∧
    (trend.tail.map SynthTrendPoint.synthDelta).sum
      = (trend.getLast hne).synth - (trend.head hne).synth := by
  have hok : trendDeltasOk 0 trend := by
    rw [htrend]
    exact trendDeltasOk_runSynthCalls sid calls sid
  rcases trend with _ | ⟨p, rest⟩
  · exact absurd rfl hne
  · obtain ⟨hp, hrest⟩ := hok
    constructor
    · simpa using hp
    · rw [List.tail_cons, deltas_sum_aux rest p hrest, List.head_cons]
      cases rest with
      | nil => simp
      | cons r rest' =>
          have hlast : ((r :: rest').getLast?)
              = some ((r :: rest').getLast (List.cons_ne_nil r rest')) :=
            List.getLast?_eq_getLast _ _
          rw [hlast]
          simp only [Option.map_some', Option.getD_some]
          rw [List.getLast_cons (List.cons_ne_nil r rest')]

/-! ## Counterexample for the skip-after-the-fact claim -/

/-- Counterexample to C3 as stated: in `c3Tracker` line 1 of `f` passes all
its G1 and G3 observations and has a failing G2 observation recorded before
G2's `skip` flag was set to `true` — and `getLineVerification` reports the
line as `verified := true`, because `skip` is evaluated live against the
current policy.  The claim's "the line is never reported verified, even if
G2's skip flag is set to true only after the failing observation was
recorded" is therefore false on this input. -/
theorem skip_after_fact_makes_line_verified :
    c3Tracker.getLineVerification "s" "f"
      = .ok [{ location := { filePath := "f", lineNumber := 1 }
               g1Passed := some true, g2Passed := some false
               g3Passed := some true, verified := true }] := by
  rfl

/-! ## Witnesses -/

theorem line_verified_iff_criterion_witness :
    mapGet wTracker.results "s" = some wResults ∧
    ((∀ (fp : String) (lst : List LineVerificationStatus),
        wTracker.getLineVerification "s" fp = .ok lst →
        ∀ status ∈ lst,
          status.verified = specVerifiedB wTracker.config (flattenObs wResults)
            (status.location.filePath, status.location.lineNumber)) ∧
     (∀ stats : SessionGateStats, wTracker.getSessionStats "s" = .ok stats →
        stats.verifiedLines = specVerifiedLines wTracker.config wResults)) :=
  ⟨rfl, line_verified_iff_criterion wTracker "s" wResults rfl⟩

theorem overallPoE_composition_witness :
    mapGet c2Tracker.results "s" = some c2Results ∧
    (∃ stats, c2Tracker.getSessionStats "s" = .ok stats ∧
      stats.overallPoE = specOverallPoE c2Tracker.config c2Results ∧
      (specApplicableGates c2Tracker.config = [] → stats.overallPoE = 0)) ∧
    specOverallPoE c2Tracker.config c2Results = 62 / 125 := by
  refine ⟨rfl, overallPoE_composition c2Tracker "s" c2Results rfl, ?_⟩
  have h1 : GateTracker.gateStatsOf c2Results .G1_COMPILE
      = { linesChecked := 10, linesPassed := 8, passRate := 4/5, poe := 1/5 } := by
    have ha : (GateTracker.gateLineMap c2Results .G1_COMPILE).length = 10 := by
      decide
    have hb : List.countP ((fun passed => passed) ∘ Prod.snd)
        (GateTracker.gateLineMap c2Results .G1_COMPILE) = 8 := by
      decide
    simp only [GateTracker.gateStatsOf, List.countP_map, ha, hb]
    norm_num
  have h2 : GateTracker.gateStatsOf c2Results .G2_CORRECT
      = { linesChecked := 10, linesPassed := 7, passRate := 7/10, poe := 3/10 } := by
    have ha : (GateTracker.gateLineMap c2Results .G2_CORRECT).length = 10 := by
      decide
    have hb : List.countP ((fun passed => passed) ∘ Prod.snd)
        (GateTracker.gateLineMap c2Results .G2_CORRECT) = 7 := by
      decide
    simp only [GateTracker.gateStatsOf, List.countP_map, ha, hb]
    norm_num
  have h3 : GateTracker.gateStatsOf c2Results .G3_REACHABLE
      = { linesChecked := 10, linesPassed := 9, passRate := 9/10, poe := 1/10 } := by
    have ha : (GateTracker.gateLineMap c2Results .G3_REACHABLE).length = 10 := by
      decide
    have hb : List.countP ((fun passed => passed) ∘ Prod.snd)
        (GateTracker.gateLineMap c2Results .G3_REACHABLE) = 9 := by
      decide
    simp only [GateTracker.gateStatsOf, List.countP_map, ha, hb]
    norm_num
  have happ : specApplicableGates c2Tracker.config = ALL_GATES := by decide
  rw [specOverallPoE, happ]
  rw [if_neg (by decide)]
  simp only [ALL_GATES, List.map_cons, List.map_nil, h1, h2, h3,
    List.prod_cons, List.prod_nil]
  norm_num

theorem failing_g2_live_skip_witness :
    mapGet c3Tracker.results "s" = some c3Results ∧
    andAll (gateObs (flattenObs c3Results) .G1_COMPILE ("f", 1)) = true ∧
    andAll (gateObs (flattenObs c3Results) .G3_REACHABLE ("f", 1)) = true ∧
    andAll (gateObs (flattenObs c3Results) .G2_CORRECT ("f", 1)) = false ∧
    (∀ status, mapGet (c3Tracker.buildLineVerificationMap "s") ("f", 1)
        = some status →
      ((c3Tracker.config.G2_CORRECT.required = true →
          c3Tracker.config.G2_CORRECT.skip = false →
          c3Tracker.isLineVerified status = false) ∧
       (c3Tracker.config.G2_CORRECT.skip = true →
          c3Tracker.isLineVerified status = true))) :=
  ⟨rfl, by decide, by decide, by decide,
    failing_g2_live_skip c3Tracker "s" c3Results rfl "f" 1
      (by decide) (by decide) (by decide)⟩

theorem gateStats_AND_and_permutation_invariance_witness :
    c4A.Perm c4B ∧
    GateTracker.gateStatsOf c4A .G1_COMPILE
      = GateTracker.gateStatsOf c4B .G1_COMPILE :=
  ⟨List.Perm.swap _ _ _,
    (gateStats_AND_and_permutation_invariance c4A c4B .G1_COMPILE).2.2
      (List.Perm.swap _ _ _)⟩

theorem countLines_total_invariant_witness :
    (countLines ("let x = 1\n// c\n\n/* b */".data) .typescript).total
        = (countLines ("let x = 1\n// c\n\n/* b */".data) .typescript).code
            + (countLines ("let x = 1\n// c\n\n/* b */".data) .typescript).comments
            + (countLines ("let x = 1\n// c\n\n/* b */".data) .typescript).blank ∧
    countLines [] .typescript = { total := 1, code := 0, comments := 0, blank := 1 } :=
  ⟨(countLines_total_invariant ("let x = 1\n// c\n\n/* b */".data) .typescript).1,
    (countLines_total_invariant [] .typescript).2.2⟩

theorem metrics_error_conditions_witness :
    mapGet wCollector.sessions "s" = some wSession ∧
    wSnapshot.totals.total ≠ 0 ∧
    (∃ m, MetricsCalculator.calculate wCollector GateTracker.init "s" wSnapshot 0
        = .ok m ∧
      m.totalTokens = specTotalTokens wSession ∧
      m.tokensPerLOC
        = (specTotalTokens wSession : ℚ) / (wSnapshot.totals.total : ℚ)) ∧
    specTotalTokens wSession = 15000 :=
  ⟨rfl, by decide,
    ((metrics_error_conditions wCollector GateTracker.init "s" wSnapshot 0
      { synthTrends := [] } "st" "now").1 wSession rfl).2 (by decide),
    by decide⟩

theorem wTrendRun_ne : wTrendRun ≠ [] := by decide

theorem synth_trend_telescopes_witness :
    (wTrendRun.head wTrendRun_ne).synthDelta = (wTrendRun.head wTrendRun_ne).synth ∧
    (wTrendRun.tail.map SynthTrendPoint.synthDelta).sum
      = (wTrendRun.getLast wTrendRun_ne).synth - (wTrendRun.head wTrendRun_ne).synth :=
  synth_trend_telescopes "s" [wCall1, wCall2] wTrendRun rfl wTrendRun_ne

theorem threshold_noninterference_witness :
    wTracker.results = c8Other.results ∧
    (∀ g, (wTracker.config.get g).required = (c8Other.config.get g).required) ∧
    (∀ g, (wTracker.config.get g).skip = (c8Other.config.get g).skip) ∧
    (wTracker.getSessionStats "s" = c8Other.getSessionStats "s" ∧
     wTracker.getLineVerification "s" "f" = c8Other.getLineVerification "s" "f") :=
  ⟨rfl, fun g => by cases g <;> rfl, fun g => by cases g <;> rfl,
    threshold_noninterference wTracker c8Other "s" "f" rfl
      (fun g => by cases g <;> rfl) (fun g => by cases g <;> rfl)
      (fun g => by
        cases g
        · exact ⟨(by norm_num : (0:ℚ) ≤ 1), (by norm_num : (1:ℚ) ≤ 1)⟩
        · exact ⟨(by norm_num : (0:ℚ) ≤ 1), (by norm_num : (1:ℚ) ≤ 1)⟩
        · exact ⟨(by norm_num : (0:ℚ) ≤ 1), (by norm_num : (1:ℚ) ≤ 1)⟩)
      (fun g => by
        cases g
        · exact ⟨(by norm_num : (0:ℚ) ≤ 0), (by norm_num : (0:ℚ) ≤ 1)⟩
        · exact ⟨(by norm_num : (0:ℚ) ≤ 1), (by norm_num : (1:ℚ) ≤ 1)⟩
        · exact ⟨(by norm_num : (0:ℚ) ≤ 1), (by norm_num : (1:ℚ) ≤ 1)⟩)⟩

theorem setConfig_validation_and_merge_witness :
    (∃ g ∈ ALL_GATES, ∃ th : ℚ,
        (c9Bad.get g).bind PartialGateConfig.threshold = some th ∧
          (th < 0 ∨ 1 < th)) ∧
    GateTracker.init.setConfig c9Bad =
      (.err { code := .INVALID_THRESHOLD
              message := "Invalid threshold. Must be between 0 and 1." },
        GateTracker.init) := by
  have hbad : ∃ g ∈ ALL_GATES, ∃ th : ℚ,
      (c9Bad.get g).bind PartialGateConfig.threshold = some th ∧
        (th < 0 ∨ 1 < th) :=
    ⟨.G2_CORRECT, by decide, 2, rfl, Or.inr (by norm_num)⟩
  exact ⟨hbad, (setConfig_validation_and_merge GateTracker.init c9Bad).1 hbad⟩

theorem record_empty_lineResults_witness :
    mapGet GateTracker.init.results "s" = none ∧
    c10Input.lineResults = [] ∧
    ((GateTracker.init.record "s" c10Input).1.isOk = true ∧
     ((GateTracker.init.record "s" c10Input).2.getResults "s").isOk = true ∧
     (∀ g, (GateTracker.init.record "s" c10Input).2.getGateStats "s" g
        = .ok { linesChecked := 0, linesPassed := 0, passRate := 1, poe := 0 }) ∧
     ((GateTracker.init.record "s" c10Input).2.getSessionStats "s").isOk = true) :=
  ⟨rfl, rfl, record_empty_lineResults GateTracker.init "s" c10Input rfl rfl⟩

end RalphMeter
